import Mathlib
/-!
# Verification of the NISD API batch ETL pipeline

A shallow embedding, in Lean 4, of the batch configuration-driven ETL
pipeline of the `_api` Google Apps Script project: validators
(`src/utils/Validators_new.js`), the retry wrapper
(`src/utils/ErrorHandler.js`), the email/drive/sheet services
(`src/services/*.js`) and the two batch orchestrators
(`src/main/EmailProcessor_new.js`, `src/main/DataPusher.js`).

Modelling conventions:
* JavaScript values that flow through the validators are modelled by
  `JsVal` (undefined, null, string, number, boolean).
* Thrown errors are modelled by `Except JsError`; `JsError` mirrors the
  objects built by `ErrorHandler_createError` (`message` plus optional
  `code`; a bare `new Error(msg)` has `code = none`).
* External collaborators (Gmail, Drive, the spreadsheet stores) are
  modelled by an explicit, read-only environment `Env` together with a
  mutable `World` of spreadsheets.  All mutations of the spreadsheet
  stores are represented as an ordered list of events (`Ev`); the world
  obtained after a run is the replay of those events.  The pipeline never
  adds or removes sheets, which the replay respects
  (`World.structureOf_replay`).
* Cell values are modelled as strings; `""` is the empty cell.
* Logging is not observable and is not modelled; `Utilities.sleep`
  inside the orchestrator loops is modelled as an `Ev.sleep` event.
-/

/-- A JavaScript value as it reaches the validators: `undefined`, `null`,
a string, a number or a boolean. -/
inductive JsVal where
  | undef
  | null
  | str (s : String)
  | num (n : Int)
  | boolean (b : Bool)
deriving DecidableEq, Repr

/-- String coercion used by JavaScript `+` concatenation. -/
def jsShow : JsVal → String
  | .undef => "undefined"
  | .null => "null"
  | .str s => s
  | .num n => toString n
  | .boolean b => if b then "true" else "false"

/-- Whitespace test used by `trim` (the whitespace characters relevant to
this model). -/
def isWsCh (c : Char) : Bool := c = ' ' || c = '\t' || c = '\n' || c = '\r'

/-- JavaScript `String.prototype.trim()`: strip leading and trailing
whitespace. -/
def jsTrim (s : String) : String :=
  String.mk (List.reverse (List.dropWhile isWsCh (List.reverse (List.dropWhile isWsCh s.toList))))

/-- The test `params[p] === undefined || params[p] === null || params[p] === ''`
used by `ErrorHandler_validateRequired`. -/
def jsMissing : JsVal → Bool
  | .undef => true
  | .null => true
  | .str s => s = ""
  | _ => false

/-- The combined test `!v || typeof v !== 'string' || v.trim().length === 0`
used by all string validators: `true` iff `v` is a string whose trimmed
form is non-empty. -/
def jsNonBlank : JsVal → Bool
  | .str s => !(jsTrim s = "")
  | _ => false

/-- A thrown error: the object built by `ErrorHandler_createError`
(`message`, `code`); a plain `new Error(msg)` carries `code = none`. -/
structure JsError where
  message : String
  code : Option String
deriving DecidableEq, Repr

/-- `ErrorHandler_createError(message, code)` (the `details` object is
only logged and is not modelled). -/
def ErrorHandler_createError (message : String) (code : Option String) : JsError :=
  { message := message, code := code }

/-- `ErrorHandler_handle(error, context)`: formats and returns
`'[' + timestamp + '] ' + context + ': ' + error.message`; `nowIso` is the
ambient `new Date().toISOString()`. -/
def ErrorHandler_handle (nowIso : String) (error : JsError) (context : String) : String :=
  "[" ++ nowIso ++ "] " ++ context ++ ": " ++ error.message

/-- Association-list lookup, modelling property access on a JS object /
`getUserLabelByName`-style resolution. -/
def jsAssoc {α : Type} : List (String × α) → String → Option α
  | [], _ => none
  | (k, v) :: rest, key => if k = key then some v else jsAssoc rest key

/-- `'A' ≤ c ≤ 'Z'` (the `[A-Z]` character class). -/
def isUpperCh (c : Char) : Bool := 'A' ≤ c && c ≤ 'Z'

/-- `'0' ≤ c ≤ '9'` (the `\d` character class). -/
def isDigitCh (c : Char) : Bool := '0' ≤ c && c ≤ '9'

/-- One side of the range regex: `[A-Z]+\d*`. -/
def colPart (cs : List Char) : Bool :=
  !(cs.takeWhile isUpperCh).isEmpty && (cs.dropWhile isUpperCh).all isDigitCh

/-- The range regex `/^[A-Z]+\d*:[A-Z]+\d*$/` of `Validators_validateRange`
(neither character class contains `':'`, so a match has exactly one colon). -/
def rangePattern (s : String) : Bool :=
  match s.toList.splitOn ':' with
  | [p, q] => colPart p && colPart q
  | _ => false

/-- The spreadsheet-id regex `/^[a-zA-Z0-9_-]{44}$/` of
`Validators_validateSpreadsheetId`. -/
def idPattern (s : String) : Bool :=
  s.toList.length = 44 &&
    s.toList.all (fun c => isUpperCh c || ('a' ≤ c && c ≤ 'z') || isDigitCh c || c = '_' || c = '-')

/-- `Validators_validateSpreadsheetId(id, context)`: throws
`MISSING_PARAMETERS` unless `id` is a non-blank string; otherwise returns,
warning (result `true`) when the id does not match `idPattern`. -/
def Validators_validateSpreadsheetId (id : JsVal) (context : String) : Except JsError Bool :=
  match id with
  | .str s =>
    if s = "" || jsTrim s = "" then
      .error (ErrorHandler_createError (context ++ ": Invalid spreadsheet ID provided")
        (some "MISSING_PARAMETERS"))
    else .ok (!idPattern s)
  | _ =>
    .error (ErrorHandler_createError (context ++ ": Invalid spreadsheet ID provided")
      (some "MISSING_PARAMETERS"))

/-- `Validators_validateSheetName(name, context)`. -/
def Validators_validateSheetName (name : JsVal) (context : String) : Except JsError Unit :=
  match name with
  | .str s =>
    if s = "" || jsTrim s = "" then
      .error (ErrorHandler_createError (context ++ ": Invalid sheet name provided")
        (some "MISSING_PARAMETERS"))
    else .ok ()
  | _ =>
    .error (ErrorHandler_createError (context ++ ": Invalid sheet name provided")
      (some "MISSING_PARAMETERS"))

/-- `Validators_validateGmailLabel(label, context)`. -/
def Validators_validateGmailLabel (label : JsVal) (context : String) : Except JsError Unit :=
  match label with
  | .str s =>
    if s = "" || jsTrim s = "" then
      .error (ErrorHandler_createError (context ++ ": Invalid Gmail label provided")
        (some "MISSING_PARAMETERS"))
    else .ok ()
  | _ =>
    .error (ErrorHandler_createError (context ++ ": Invalid Gmail label provided")
      (some "MISSING_PARAMETERS"))

/-- `Validators_validateRange(range, context)`: throws `MISSING_PARAMETERS`
when `!range || typeof range !== 'string' || range.trim().length === 0`;
otherwise only WARNS (result `true`) when the range does not match
`rangePattern`, and returns silently (result `false`) when it does. -/
def Validators_validateRange (range : JsVal) (context : String) : Except JsError Bool :=
  match range with
  | .str s =>
    if s = "" || jsTrim s = "" then
      .error (ErrorHandler_createError (context ++ ": Invalid range provided")
        (some "MISSING_PARAMETERS"))
    else .ok (!rangePattern s)
  | _ =>
    .error (ErrorHandler_createError (context ++ ": Invalid range provided")
      (some "MISSING_PARAMETERS"))

/-- `Validators_validateDataArray(data, context)` on a value that is an
array of arrays (the only shape produced by the pipeline): warns (result
`true`) on an empty array or on inconsistent row lengths, never throws. -/
def Validators_validateDataArray (data : List (List String)) (_context : String) :
    Except JsError Bool :=
  if data.length = 0 then .ok true
  else .ok (!(data.filter (fun row => !(row.length = (data.headD []).length))).isEmpty)

/-- `ErrorHandler_validateRequired(params, required, context)`: collects the
required keys whose value is `undefined`, `null` or `''` (an absent key
reads as `undefined`) and throws `MISSING_PARAMETERS` naming them. -/
def ErrorHandler_validateRequired (params : List (String × JsVal)) (required : List String)
    (context : String) : Except JsError Unit :=
  match required.filter (fun p =>
      match jsAssoc params p with
      | some v => jsMissing v
      | none => true) with
  | [] => .ok ()
  | missing =>
    .error (ErrorHandler_createError
      (context ++ ": Missing required parameters: " ++ String.intercalate ", " missing)
      (some "MISSING_PARAMETERS"))

/-- Outcome of `ErrorHandler_withRetry`: a returned value, a thrown
composite `new Error(...)`, or the `TypeError` raised by reading
`lastError.message` while `lastError` is still `undefined` (reachable only
when the loop body never ran). -/
inductive RetryResult (α : Type) where
  | ok (value : α)
  | thrown (e : JsError)
  | typeError
deriving DecidableEq, Repr

/-- The composite message
`context + ' failed after ' + maxRetries + ' attempts. Last error: ' + lastError.message`. -/
def retryFailureMessage (context : String) (maxRetries : Int) (lastError : JsError) : String :=
  context ++ " failed after " ++ toString maxRetries ++ " attempts. Last error: " ++
    lastError.message

/-- The `while (attempts < maxRetries)` loop of `ErrorHandler_withRetry`.
`remaining` is `maxRetries - attempts` (the loop guard as fuel), `attempts`
the counter so far, `lastError` the last caught error.  The operation is
indexed by the (1-based) attempt number, so that each invocation may
behave differently.  On exhaustion the composite error is built from
`lastError.message`; if no attempt ever ran, `lastError` is `undefined`
and reading `.message` raises a `TypeError`. -/
def ErrorHandler_retryGo {α : Type} (operation : Nat → Except JsError α) (context : String)
    (maxRetries : Int) : Nat → Nat → Option JsError → RetryResult α × Nat
  | 0, attempts, lastError =>
    (match lastError with
     | some e => .thrown (JsError.mk (retryFailureMessage context maxRetries e) none)
     | none => .typeError, attempts)
  | remaining + 1, attempts, _ =>
    match operation (attempts + 1) with
    | .ok v => (.ok v, attempts + 1)
    | .error e => ErrorHandler_retryGo operation context maxRetries remaining (attempts + 1) (some e)

/-- `ErrorHandler_withRetry(operation, maxRetries, delay, context)`.  The
result also carries the final value of the `attempts` counter, which the
source increments exactly once per invocation of `operation`.  The delay
between attempts (`Utilities.sleep(delay)`) has no observable effect. -/
def ErrorHandler_withRetry {α : Type} (operation : Nat → Except JsError α) (maxRetries : Int)
    (_delay : Int) (context : String) : RetryResult α × Nat :=
  ErrorHandler_retryGo operation context maxRetries maxRetries.toNat 0 none

/-- Rethrowing a `RetryResult` into a caller's `try`/`catch`: the
`TypeError` thrown by the undefined read propagates like any exception. -/
def RetryResult.toExcept {α : Type} : RetryResult α → Except JsError α
  | .ok v => .ok v
  | .thrown e => .error e
  | .typeError =>
    .error (JsError.mk "Cannot read properties of undefined (reading 'message')" none)

/-- `MIME_TYPES.EXCEL` from the project configuration. -/
def MIME_EXCEL : String := "application/vnd.openxmlformats-officedocument.spreadsheetml.sheet"

/-- A Gmail attachment (blob): name, MIME content type, size. -/
structure Attachment where
  name : String
  contentType : String
  size : Nat
deriving DecidableEq, Repr

/-- A Gmail message: subject, date (as an abstract instant) and
attachments. -/
structure GmailMessage where
  subject : String
  date : Int
  attachments : List Attachment
deriving DecidableEq, Repr

/-- One email-ingestion configuration record
(`CONFIG.EMAIL_CONFIGS[i]`). -/
structure EmailConfig where
  label : JsVal
  sheetName : JsVal
  rangeToClear : JsVal
deriving DecidableEq, Repr

instance : Inhabited EmailConfig := ⟨⟨.undef, .undef, .undef⟩⟩

/-- A push target (`config.targets[i]` in `CONFIG.PUSH_DATA_CONFIGS`). -/
structure PushTarget where
  spreadsheetId : JsVal
  sheetName : JsVal
deriving DecidableEq, Repr

/-- One push configuration (`CONFIG.PUSH_DATA_CONFIGS.sourceSheets[name]`). -/
structure PushConfig where
  range : JsVal
  targets : List PushTarget
deriving DecidableEq, Repr

/-- The read-only environment: the external collaborators
(Gmail label store, Drive file conversion, the converted tabular store)
together with the injected configuration.  `gmailLabels` maps a label name
to its threads, most recent thread first; a thread is its list of
messages in order, the last being the newest.  `converted` gives, for a
converted-file id and a (1-based) retry attempt number, the outcome of
opening it: an exception, `none` when the file has no sheets, or the
`getDataRange().getValues()` rows of its first sheet. -/
structure Env where
  gmailLabels : List (String × List (List GmailMessage))
  driveCreate : Attachment → Except JsError Unit
  driveConvert : Attachment → Except JsError String
  converted : String → Nat → Except JsError (Option (List (List String)))
  mainId : String
  emailConfigs : List EmailConfig
  pushConfigs : List (String × PushConfig)
  retryMax : Int
  retryDelay : Int
  nowIso : String
  nowFormatted : String

/-- `Validators_validateEmailConfig(config, context)`: object check,
`validateRequired` on the three fields, then the field validators.  A
non-object configuration is modelled by `none`. -/
def Validators_validateEmailConfig (config : Option EmailConfig) (context : String) :
    Except JsError Unit :=
  match config with
  | none =>
    .error (ErrorHandler_createError (context ++ ": Configuration must be an object")
      (some "MISSING_PARAMETERS"))
  | some c =>
    match ErrorHandler_validateRequired
        [("label", c.label), ("sheetName", c.sheetName), ("rangeToClear", c.rangeToClear)]
        ["label", "sheetName", "rangeToClear"] context with
    | .error e => .error e
    | .ok _ =>
      match Validators_validateSheetName c.sheetName (context ++ ".sheetName") with
      | .error e => .error e
      | .ok _ =>
        match Validators_validateRange c.rangeToClear (context ++ ".rangeToClear") with
        | .error e => .error e
        | .ok _ =>
          match Validators_validateGmailLabel c.label (context ++ ".label") with
          | .error e => .error e
          | .ok _ => .ok ()

/-- `EmailService_getLatestEmailByLabel(labelName)`: validates the label,
resolves it (`LABEL_NOT_FOUND` if absent), takes the most recent thread
(`label.getThreads(0, 1)`; `EMAIL_NOT_FOUND` when there is none) and
returns `messages[messages.length - 1]` of that thread — `none` models the
JS `undefined` read on an empty message list. -/
def EmailService_getLatestEmailByLabel (env : Env) (labelName : JsVal) :
    Except JsError (Option GmailMessage) :=
  match Validators_validateGmailLabel labelName "getLatestEmailByLabel" with
  | .error e => .error e
  | .ok _ =>
    match jsAssoc env.gmailLabels (jsShow labelName) with
    | none =>
      .error (ErrorHandler_createError
        ("Label \"" ++ jsShow labelName ++ "\" does not exist") (some "LABEL_NOT_FOUND"))
    | some threads =>
      match threads with
      | [] =>
        .error (ErrorHandler_createError
          ("No emails found under label \"" ++ jsShow labelName ++ "\"")
          (some "EMAIL_NOT_FOUND"))
      | messages :: _ => .ok messages.getLast?

/-- `EmailService_labelExists(labelName)`: `true` iff the label validates
and resolves; any thrown error is caught and turned into `false`. -/
def EmailService_labelExists (env : Env) (labelName : JsVal) : Bool :=
  match Validators_validateGmailLabel labelName "labelExists" with
  | .error _ => false
  | .ok _ => (jsAssoc env.gmailLabels (jsShow labelName)).isSome

/-- `Validators_validateEmailAttachment(attachment, context)`. -/
def Validators_validateEmailAttachment (attachment : Option Attachment) (context : String) :
    Except JsError Unit :=
  match attachment with
  | none =>
    .error (ErrorHandler_createError (context ++ ": No attachment provided")
      (some "ATTACHMENT_NOT_FOUND"))
  | some a =>
    if a.contentType = MIME_EXCEL then .ok ()
    else
      .error (ErrorHandler_createError
        (context ++ ": Invalid attachment type. Expected Excel file.")
        (some "ATTACHMENT_NOT_FOUND"))

/-- `EmailService_getExcelAttachment(message, context)`: guards the message,
requires at least one attachment, scans for the first Excel-typed one and
validates it.  `none` models a JS `undefined` message. -/
def EmailService_getExcelAttachment (message : Option GmailMessage) (context : String) :
    Except JsError Attachment :=
  match message with
  | none =>
    .error (ErrorHandler_createError "No email message provided" (some "MISSING_PARAMETERS"))
  | some m =>
    if m.attachments.isEmpty then
      .error (ErrorHandler_createError "No attachments found in the email"
        (some "ATTACHMENT_NOT_FOUND"))
    else
      match m.attachments.find? (fun a => a.contentType = MIME_EXCEL) with
      | none =>
        .error (ErrorHandler_createError "No Excel attachment found in the email"
          (some "ATTACHMENT_NOT_FOUND"))
      | some excel =>
        match Validators_validateEmailAttachment (some excel) context with
        | .error e => .error e
        | .ok _ => .ok excel

/-- A sheet inside a spreadsheet store: its cell grid (row-major,
`cells[r][c]` is the 1-based cell `(r+1, c+1)`; `""` is an empty cell),
its column capacity (`getMaxColumns()`), and the note on cell A1. -/
structure Sheet where
  cells : List (List String)
  maxColumns : Nat
  note : Option String
deriving DecidableEq, Repr

/-- A spreadsheet store: display name and named sheets. -/
structure Spreadsheet where
  name : String
  sheets : List (String × Sheet)
deriving DecidableEq, Repr

/-- The mutable world: spreadsheet stores keyed by spreadsheet id. -/
def World : Type := List (String × Spreadsheet)

/-- The immutable structure of the world: which spreadsheet ids open,
and which sheet names each contains.  The pipeline only mutates cell
contents and notes, never this structure (`World.structureOf_replay`). -/
def World.structureOf (w : World) : List (String × List String) :=
  w.map (fun p => (p.1, p.2.sheets.map Prod.fst))

/-- A parsed A1 column range `COL[row]:COL[row]` (e.g. `"A2:H"`):
column bounds are 1-based, row bounds optional (an absent bound means the
range is unbounded on that side, clipped to the sheet). -/
structure A1Range where
  c1 : Nat
  r1 : Option Nat
  c2 : Nat
  r2 : Option Nat
deriving DecidableEq, Repr

/-- Column letters to a 1-based column index (`A=1, ..., Z=26, AA=27, ...`). -/
def colIndex (letters : List Char) : Nat :=
  letters.foldl (fun acc c => acc * 26 + (c.toNat - 'A'.toNat + 1)) 0

/-- Decimal digits to a number. -/
def digitsToNat (ds : List Char) : Nat :=
  ds.foldl (fun acc c => acc * 10 + (c.toNat - '0'.toNat)) 0

/-- `Sheet.getRange(a1)` address resolution for the `COL\d*:COL\d*` ranges
this project uses; `none` models the exception Apps Script raises on an
unparsable reference. -/
def parseA1 (s : String) : Option A1Range :=
  match s.toList.splitOn ':' with
  | [p, q] =>
    let l1 := p.takeWhile isUpperCh
    let d1 := p.dropWhile isUpperCh
    let l2 := q.takeWhile isUpperCh
    let d2 := q.dropWhile isUpperCh
    if l1.isEmpty || l2.isEmpty || !d1.all isDigitCh || !d2.all isDigitCh then none
    else
      some { c1 := colIndex l1
             r1 := if d1.isEmpty then none else some (digitsToNat d1)
             c2 := colIndex l2
             r2 := if d2.isEmpty then none else some (digitsToNat d2) }
  | _ => none

/-- An observable side effect on the external stores: the sleeps of the
orchestrator loops and the writes of the destination writers. -/
inductive Ev where
  | sleep (ms : Nat)
  | clearA1 (ssId sheetName : String) (rgn : A1Range)
  | clearRect (ssId sheetName : String) (row col numRows numCols : Nat)
  | setValues (ssId sheetName : String) (row col : Nat) (data : List (List String))
  | setNote (ssId sheetName : String) (note : String)
deriving DecidableEq, Repr

/-- Is this event a `Utilities.sleep`? -/
def Ev.isSleep : Ev → Bool
  | .sleep _ => true
  | _ => false

/-- `row.take n` padded with empty cells to length exactly `n`. -/
def takePad (row : List String) (n : Nat) : List String :=
  (row ++ List.replicate (n - row.length) "").take n

/-- Overwrite `row` from 1-based column `c0` with `rowData`
(`Range.setValues` on one row: cells left of the range keep their value,
the range takes the new values, cells right of it keep their value). -/
def writeRow (row : List String) (c0 : Nat) (rowData : List String) : List String :=
  takePad row (c0 - 1) ++ rowData ++ row.drop (c0 - 1 + rowData.length)

/-- `cells.take n` padded with empty rows to length exactly `n`. -/
def takePadRows (cells : List (List String)) (n : Nat) : List (List String) :=
  (cells ++ List.replicate (n - cells.length) []).take n

/-- The overwritten rows of a `setValues` region: row `i` of `data`
replaces columns `c0..` of the original row at 0-based index `idx0 + i`. -/
def writeRows (cells : List (List String)) (idx0 c0 : Nat) : List (List String) → List (List String)
  | [] => []
  | rd :: rds => writeRow (cells.getD idx0 []) c0 rd :: writeRows cells (idx0 + 1) c0 rds

/-- `Range.setValues` on a grid: the block of `data.length` rows starting
at 1-based row `r0`, column `c0`, takes the values of `data`; all other
cells are unchanged (the grid grows if the block extends past its end). -/
def writeRegion (cells : List (List String)) (r0 c0 : Nat) (data : List (List String)) :
    List (List String) :=
  takePadRows cells (r0 - 1) ++ writeRows cells (r0 - 1) c0 data ++ cells.drop (r0 - 1 + data.length)

/-- `clearContent` of one row restricted to the columns of an `A1Range`. -/
def clearRowCols (c1 c2 : Nat) (row : List String) : List String :=
  row.enum.map (fun p => if c1 ≤ p.1 + 1 && p.1 + 1 ≤ c2 then "" else p.2)

/-- Is 1-based row `r` inside the row bounds of an `A1Range`?  An absent
bound does not constrain (the range is clipped to the sheet, and clearing
never grows a sheet). -/
def rowInA1 (a : A1Range) (r : Nat) : Bool :=
  (match a.r1 with | some lo => lo ≤ r | none => true) &&
    (match a.r2 with | some hi => r ≤ hi | none => true)

/-- `Range.clearContent` on an A1-addressed range: every cell of the grid
inside the range becomes empty; nothing else changes. -/
def clearA1Cells (a : A1Range) (cells : List (List String)) : List (List String) :=
  cells.enum.map (fun p => if rowInA1 a (p.1 + 1) then clearRowCols a.c1 a.c2 p.2 else p.2)

/-- `Range.clearContent` on a rectangle given by 1-based start row/column
and extents (the form `getRange(2, 1, lastRow - 1, maxColumns)` used by
the push path). -/
def clearRectCells (r0 c0 numRows numCols : Nat) (cells : List (List String)) :
    List (List String) :=
  cells.enum.map (fun p =>
    if r0 ≤ p.1 + 1 && p.1 + 1 < r0 + numRows then clearRowCols c0 (c0 + numCols - 1) p.2 else p.2)

/-- Apply an update to one named sheet of one spreadsheet of the world. -/
def World.updateSheet (w : World) (id name : String) (f : Sheet → Sheet) : World :=
  w.map (fun p =>
    if p.1 = id then
      (p.1, { p.2 with sheets := p.2.sheets.map (fun q => if q.1 = name then (q.1, f q.2) else q) })
    else p)

/-- The effect of one event on the world. -/
def World.applyEv (w : World) : Ev → World
  | .sleep _ => w
  | .clearA1 id name rgn => w.updateSheet id name (fun sh => { sh with cells := clearA1Cells rgn sh.cells })
  | .clearRect id name r c nr nc =>
    w.updateSheet id name (fun sh => { sh with cells := clearRectCells r c nr nc sh.cells })
  | .setValues id name r c data =>
    w.updateSheet id name (fun sh => { sh with cells := writeRegion sh.cells r c data })
  | .setNote id name note => w.updateSheet id name (fun sh => { sh with note := some note })

/-- Replay of an event list, in order. -/
def World.replay (w : World) : List Ev → World
  | [] => w
  | ev :: evs => World.replay (w.applyEv ev) evs

/-- `haystack.indexOf(needle) !== -1` on strings. -/
def containsSub (haystack needle : String) : Bool :=
  haystack.toList.tails.any (fun t => needle.toList.isPrefixOf t)

/-- `DriveService__extractDataFromSheet(spreadsheetId)` given the outcome
of opening the converted store (`.error` when `openById` throws, `.ok
none` when the file has no sheets, `.ok rows` for the first sheet's
`getDataRange().getValues()`): drops the header row when more than one
row exists, returns `[]` otherwise; its `catch` re-wraps any error whose
message contains `'not found'` as `SPREADSHEET_NOT_FOUND`. -/
def DriveService__extractDataFromSheet
    (openResult : Except JsError (Option (List (List String)))) :
    Except JsError (List (List String)) :=
  let tryBlock : Except JsError (List (List String)) :=
    match openResult with
    | .error e => .error e
    | .ok none =>
      .error (ErrorHandler_createError "No sheets found in the converted file"
        (some "SHEET_NOT_FOUND"))
    | .ok (some data) => .ok (if data.length > 1 then data.drop 1 else [])
  match tryBlock with
  | .ok v => .ok v
  | .error e =>
    if containsSub e.message "not found" then
      .error (ErrorHandler_createError "Converted spreadsheet not found or not accessible"
        (some "SPREADSHEET_NOT_FOUND"))
    else .error e

/-- `DriveService_processExcelData(fileBlob, context)`: save the blob to a
temporary Drive file, convert it to a native sheet, then extract its rows
under `ErrorHandler_withRetry` with the configured attempt count and
delay.  Failures of the first two steps are wrapped as
`FILE_PROCESSING_ERROR`.  The `finally` cleanup only trashes the
temporary Drive artifacts and logs (never propagating), so it has no
observable effect in this model. -/
def DriveService_processExcelData (env : Env) (fileBlob : Attachment) :
    Except JsError (List (List String)) :=
  match env.driveCreate fileBlob with
  | .error _ =>
    .error (ErrorHandler_createError "Failed to create temporary file in Google Drive"
      (some "FILE_PROCESSING_ERROR"))
  | .ok _ =>
    match env.driveConvert fileBlob with
    | .error _ =>
      .error (ErrorHandler_createError "Failed to convert file to Google Sheets format"
        (some "FILE_PROCESSING_ERROR"))
    | .ok convertedId =>
      (ErrorHandler_withRetry
        (fun attempt => DriveService__extractDataFromSheet (env.converted convertedId attempt))
        env.retryMax env.retryDelay "Extract data from converted sheet").1.toExcept

/-- `SheetService__openSpreadsheet(spreadsheetId, context)` against the
world structure: resolves the id to the spreadsheet's sheet names, or
throws `SPREADSHEET_NOT_FOUND` when `SpreadsheetApp.openById` fails
(unknown id, or a non-string id). -/
def SheetService__openSpreadsheet (ws : List (String × List String)) (spreadsheetId : JsVal)
    (context : String) : Except JsError (List String) :=
  match spreadsheetId with
  | .str s =>
    match jsAssoc ws s with
    | some names => .ok names
    | none =>
      .error (ErrorHandler_createError (context ++ ": Failed to open spreadsheet")
        (some "SPREADSHEET_NOT_FOUND"))
  | _ =>
    .error (ErrorHandler_createError (context ++ ": Failed to open spreadsheet")
      (some "SPREADSHEET_NOT_FOUND"))

/-- `Validators_validateSheet(sheet, expectedName, context)` after a
`getSheetByName` fetch: fails with `SHEET_NOT_FOUND` iff the sheet is
`null`.  (The name-mismatch branch is unreachable for a by-name fetch.) -/
def Validators_validateSheet (found : Bool) (expectedName : JsVal) (context : String) :
    Except JsError Unit :=
  if found then .ok ()
  else
    .error (ErrorHandler_createError
      (context ++ ": Sheet \"" ++ jsShow expectedName ++ "\" not found")
      (some "SHEET_NOT_FOUND"))

/-- `SheetService__getSheet(spreadsheet, sheetName, context)` against the
sheet-name list of an open spreadsheet: `getSheetByName` plus
`Validators_validateSheet`; returns the resolved name. -/
def SheetService__getSheet (sheetNames : List String) (sheetName : JsVal) (context : String) :
    Except JsError String :=
  match sheetName with
  | .str s =>
    match Validators_validateSheet (sheetNames.contains s) sheetName context with
    | .error e => .error e
    | .ok _ => .ok s
  | _ =>
    match Validators_validateSheet false sheetName context with
    | .error e => .error e
    | .ok _ => .ok (jsShow sheetName)

/-- `SheetService__clearRange(sheet, rangeToClear, context)`: resolve the
A1 range and clear its content; a failing `getRange` is wrapped as
`GENERAL_ERROR`. -/
def SheetService__clearRange (ssId sheetName : String) (rangeToClear : JsVal) (context : String) :
    Except JsError Unit × List Ev :=
  match rangeToClear with
  | .str s =>
    match parseA1 s with
    | some rgn => (.ok (), [Ev.clearA1 ssId sheetName rgn])
    | none =>
      (.error (ErrorHandler_createError
        (context ++ ": Failed to clear range " ++ s) (some "GENERAL_ERROR")), [])
  | v =>
    (.error (ErrorHandler_createError
      (context ++ ": Failed to clear range " ++ jsShow v) (some "GENERAL_ERROR")), [])

/-- `SheetService__insertData(sheet, data, context)`: writes `data` at row
2, column 1, spanning `data.length` rows by `data[0].length` columns, and
returns the number of rows inserted.  A ragged array makes the underlying
`setValues` throw, which is wrapped as `GENERAL_ERROR`. -/
def SheetService__insertData (ssId sheetName : String) (data : List (List String))
    (context : String) : Except JsError Nat × List Ev :=
  if data.length = 0 then (.ok 0, [])
  else
    if data.all (fun row => row.length = (data.headD []).length) then
      (.ok data.length, [Ev.setValues ssId sheetName 2 1 data])
    else
      (.error (ErrorHandler_createError (context ++ ": Failed to insert data into sheet")
        (some "GENERAL_ERROR")), [])

/-- `DateUtils_createTimestampNote(action)`: `action + ' on: ' + formattedDate`. -/
def DateUtils_createTimestampNote (action nowFormatted : String) : String :=
  action ++ " on: " ++ nowFormatted

/-- `SheetService__addTimestampNote(sheet, context)`: best-effort note on
cell A1.  Setting a note is always possible in this model, so the
swallowed-failure branch of the source is unreachable here. -/
def SheetService__addTimestampNote (env : Env) (ssId sheetName : String) : List Ev :=
  [Ev.setNote ssId sheetName (DateUtils_createTimestampNote "Updated" env.nowFormatted)]

/-- The result object of `SheetService_updateSheet`. -/
structure UpdateResult where
  spreadsheetId : JsVal
  sheetName : JsVal
  rowsInserted : Nat
  columnsInserted : Nat
  rangeToClear : JsVal
  timestamp : String
deriving DecidableEq, Repr

/-- `SheetService_updateSheet(spreadsheetId, sheetName, rangeToClear, data,
context)`: validate the four inputs, resolve the spreadsheet and sheet,
clear the range, insert the data if non-empty, stamp the timestamp note,
and return the metadata.  The event list records the writes performed
before any thrown error. -/
def SheetService_updateSheet (env : Env) (ws : List (String × List String))
    (spreadsheetId sheetName rangeToClear : JsVal) (data : List (List String))
    (context : String) : Except JsError UpdateResult × List Ev :=
  match Validators_validateSpreadsheetId spreadsheetId (context ++ ".spreadsheetId") with
  | .error e => (.error e, [])
  | .ok _ =>
  match Validators_validateSheetName sheetName (context ++ ".sheetName") with
  | .error e => (.error e, [])
  | .ok _ =>
  match Validators_validateRange rangeToClear (context ++ ".rangeToClear") with
  | .error e => (.error e, [])
  | .ok _ =>
  match Validators_validateDataArray data (context ++ ".data") with
  | .error e => (.error e, [])
  | .ok _ =>
  match SheetService__openSpreadsheet ws spreadsheetId context with
  | .error e => (.error e, [])
  | .ok sheetNames =>
  match SheetService__getSheet sheetNames sheetName context with
  | .error e => (.error e, [])
  | .ok resolvedSheet =>
  match SheetService__clearRange (jsShow spreadsheetId) resolvedSheet rangeToClear context with
  | (.error e, evs) => (.error e, evs)
  | (.ok _, clearEvs) =>
    if data.length > 0 then
      match SheetService__insertData (jsShow spreadsheetId) resolvedSheet data context with
      | (.error e, evs) => (.error e, clearEvs ++ evs)
      | (.ok insertedRows, insertEvs) =>
        (.ok { spreadsheetId := spreadsheetId
               sheetName := sheetName
               rowsInserted := insertedRows
               columnsInserted := if data.length > 0 then (data.headD []).length else 0
               rangeToClear := rangeToClear
               timestamp := env.nowIso },
         clearEvs ++ insertEvs ++ SheetService__addTimestampNote env (jsShow spreadsheetId) resolvedSheet)
    else
      (.ok { spreadsheetId := spreadsheetId
             sheetName := sheetName
             rowsInserted := 0
             columnsInserted := if data.length > 0 then (data.headD []).length else 0
             rangeToClear := rangeToClear
             timestamp := env.nowIso },
       clearEvs ++ SheetService__addTimestampNote env (jsShow spreadsheetId) resolvedSheet)

/-- `SheetService_getSpreadsheetMetadata(spreadsheetId)`: id validation and
open, any failure re-wrapped as `SPREADSHEET_NOT_FOUND`; returns the sheet
names (the display fields are not needed by the pipeline). -/
def SheetService_getSpreadsheetMetadata (ws : List (String × List String))
    (spreadsheetId : JsVal) : Except JsError (List String) :=
  let tryBlock : Except JsError (List String) :=
    match Validators_validateSpreadsheetId spreadsheetId "getSpreadsheetMetadata" with
    | .error e => .error e
    | .ok _ => SheetService__openSpreadsheet ws spreadsheetId "getSpreadsheetMetadata"
  match tryBlock with
  | .ok names => .ok names
  | .error _ =>
    .error (ErrorHandler_createError "Failed to get spreadsheet metadata"
      (some "SPREADSHEET_NOT_FOUND"))

/-- `SheetService_validateRequiredSheets(spreadsheetId, requiredSheets,
context)`: opens the spreadsheet and fails with `SHEET_NOT_FOUND` when a
required name is not among the existing sheets (a non-string entry is
never found by `indexOf`). -/
def SheetService_validateRequiredSheets (ws : List (String × List String))
    (spreadsheetId : JsVal) (requiredSheets : List JsVal) (context : String) :
    Except JsError Unit :=
  match SheetService__openSpreadsheet ws spreadsheetId context with
  | .error e => .error e
  | .ok existingSheets =>
    match requiredSheets.filter (fun n =>
        match n with
        | .str s => !existingSheets.contains s
        | _ => true) with
    | [] => .ok ()
    | missingSheets =>
      .error (ErrorHandler_createError
        (context ++ ": Missing required sheets: " ++
          String.intercalate ", " (missingSheets.map jsShow))
        (some "SHEET_NOT_FOUND"))

/-- The result object of `EmailProcessor_processSingleConfig`: the
`updateSheet` metadata plus email/attachment details. -/
structure SingleResult where
  update : UpdateResult
  emailSubject : String
  emailDate : Int
  attachmentName : String
  attachmentSize : Nat
  label : JsVal
deriving DecidableEq, Repr

/-- `EmailProcessor_processSingleConfig(config, context)`: validate the
configuration, fetch the latest email under the label, extract the Excel
attachment, convert it to rows, and write them to the configured sheet of
the main spreadsheet.  Any thrown error propagates to the caller together
with the writes already performed. -/
def EmailProcessor_processSingleConfig (env : Env) (ws : List (String × List String))
    (config : EmailConfig) (context : String) : Except JsError SingleResult × List Ev :=
  match Validators_validateEmailConfig (some config) context with
  | .error e => (.error e, [])
  | .ok _ =>
  match EmailService_getLatestEmailByLabel env config.label with
  | .error e => (.error e, [])
  | .ok message =>
  match EmailService_getExcelAttachment message context with
  | .error e => (.error e, [])
  | .ok attachment =>
  match DriveService_processExcelData env attachment with
  | .error e => (.error e, [])
  | .ok data =>
  match SheetService_updateSheet env ws (.str env.mainId) config.sheetName config.rangeToClear
      data context with
  | (.error e, evs) => (.error e, evs)
  | (.ok updateResult, evs) =>
    (.ok { update := updateResult
           emailSubject := (message.map GmailMessage.subject).getD ""
           emailDate := (message.map GmailMessage.date).getD 0
           attachmentName := attachment.name
           attachmentSize := attachment.size
           label := config.label }, evs)

/-- One entry of the result list of `EmailProcessor_processAllConfigs`. -/
structure ItemResult where
  success : Bool
  config : JsVal
  label : JsVal
  result : Option SingleResult
  error : Option String
deriving DecidableEq, Repr

/-- The per-configuration pass of
`EmailProcessor__validateAllConfigurations`: structural validation plus
Gmail-label existence, any failure re-wrapped as `MISSING_PARAMETERS`
naming the index. -/
def EmailProcessor_validateConfigsAux (env : Env) : List EmailConfig → Nat → Except JsError Unit
  | [], _ => .ok ()
  | config :: rest, index =>
    let tryBlock : Except JsError Unit :=
      match Validators_validateEmailConfig (some config)
          ("CONFIG.EMAIL_CONFIGS[" ++ toString index ++ "]") with
      | .error e => .error e
      | .ok _ =>
        if EmailService_labelExists env config.label then .ok ()
        else
          .error (ErrorHandler_createError
            ("Gmail label does not exist: " ++ jsShow config.label) (some "LABEL_NOT_FOUND"))
    match tryBlock with
    | .error _ =>
      .error (ErrorHandler_createError
        ("Configuration validation failed at index " ++ toString index)
        (some "MISSING_PARAMETERS"))
    | .ok _ => EmailProcessor_validateConfigsAux env rest (index + 1)

/-- `EmailProcessor__validateAllConfigurations()`: non-empty configuration
list, main spreadsheet reachable, every configuration structurally valid
with an existing Gmail label, and every target sheet present in the main
spreadsheet — all before any processing. -/
def EmailProcessor__validateAllConfigurations (env : Env) (ws : List (String × List String)) :
    Except JsError Unit :=
  if env.emailConfigs.isEmpty then
    .error (ErrorHandler_createError "No email configurations found" (some "MISSING_PARAMETERS"))
  else
    match SheetService_getSpreadsheetMetadata ws (.str env.mainId) with
    | .error e => .error e
    | .ok _ =>
      match EmailProcessor_validateConfigsAux env env.emailConfigs 0 with
      | .error e => .error e
      | .ok _ =>
        SheetService_validateRequiredSheets ws (.str env.mainId)
          (env.emailConfigs.map EmailConfig.sheetName) "Email processor validation"

/-- The per-item context string `'config[' + i + ']_' + config.sheetName`. -/
def EmailProcessor_configContext (i : Nat) (config : EmailConfig) : String :=
  "config[" ++ toString i ++ "]_" ++ jsShow config.sheetName

/-- The result entry the batch loop records for configuration `i`: on
success `{success: true, config, label, result}`, on a caught error
`{success: false, config, label, error}` with the message formatted by
`ErrorHandler_handle`.  It is a function of the environment, the world
structure, the index and that one configuration only. -/
def EmailProcessor_itemOutcome (env : Env) (ws : List (String × List String)) (i : Nat)
    (config : EmailConfig) : ItemResult :=
  match (EmailProcessor_processSingleConfig env ws config
      (EmailProcessor_configContext i config)).1 with
  | .ok r =>
    { success := true, config := config.sheetName, label := config.label,
      result := some r, error := none }
  | .error e =>
    { success := false, config := config.sheetName, label := config.label, result := none,
      error := some (ErrorHandler_handle env.nowIso e
        ("Processing " ++ jsShow config.sheetName)) }

/-- The writes configuration `i` performs (successful or not); a function
of the environment, the world structure, the index and that one
configuration only. -/
def EmailProcessor_itemEvents (env : Env) (ws : List (String × List String)) (i : Nat)
    (config : EmailConfig) : List Ev :=
  (EmailProcessor_processSingleConfig env ws config (EmailProcessor_configContext i config)).2

/-- The `for` loop of `EmailProcessor_processAllConfigs`: process each
configuration inside a `try`/`catch`, record one entry per configuration,
and sleep 500 ms after every configuration except the last
(`if (i < CONFIG.EMAIL_CONFIGS.length - 1) Utilities.sleep(500)`). -/
def EmailProcessor_processLoop (env : Env) (ws : List (String × List String)) (total : Nat) :
    List EmailConfig → Nat → List ItemResult × List Ev
  | [], _ => ([], [])
  | config :: rest, i =>
    let entry := EmailProcessor_itemOutcome env ws i config
    let evs := EmailProcessor_itemEvents env ws i config
    let sleepEvs : List Ev := if i < total - 1 then [Ev.sleep 500] else []
    let tail := EmailProcessor_processLoop env ws total rest (i + 1)
    (entry :: tail.1, evs ++ sleepEvs ++ tail.2)

/-- `EmailProcessor_processAllConfigs()`: pre-flight validation of every
configuration, then the sequential per-item loop.  On a pre-flight
failure the error is rethrown and no event has been emitted. -/
def EmailProcessor_processAllConfigs (env : Env) (w : World) :
    Except JsError (List ItemResult) × List Ev :=
  let ws := w.structureOf
  match EmailProcessor__validateAllConfigurations env ws with
  | .error e => (.error e, [])
  | .ok _ =>
    let run := EmailProcessor_processLoop env ws env.emailConfigs.length env.emailConfigs 0
    (.ok run.1, run.2)

/-- Concatenation of per-item event segments with a 500 ms sleep between
consecutive segments and none after the last. -/
def sleepSeparated : List (List Ev) → List Ev
  | [] => []
  | [evs] => evs
  | evs :: rest => evs ++ Ev.sleep 500 :: sleepSeparated rest

/-- 1-based cell access on a sheet; cells outside the stored grid read as
empty. -/
def Sheet.cellAt (sh : Sheet) (r c : Nat) : String :=
  (sh.cells.getD (r - 1) []).getD (c - 1) ""

/-- `Sheet.getLastRow()`: the 1-based index of the last row with content
(0 when the sheet is empty). -/
def Sheet.getLastRow (sh : Sheet) : Nat :=
  sh.cells.length - (sh.cells.reverse.takeWhile (fun row => row.all (fun cell => cell = ""))).length

/-- `getRange(a1).getValues()`: the rows of the range, an absent row bound
meaning from row 1 / through the sheet's extent, cells read blank-padded. -/
def Sheet.readA1 (sh : Sheet) (a : A1Range) : List (List String) :=
  let rStart := a.r1.getD 1
  let rEnd := match a.r2 with | some r => r | none => sh.cells.length
  (List.range' rStart (rEnd + 1 - rStart)).map (fun r =>
    (List.range' a.c1 (a.c2 + 1 - a.c1)).map (fun c => sh.cellAt r c))

/-- `SpreadsheetApp.openById` against the full world (push path), wrapped
as in `SheetService__openSpreadsheet`. -/
def SheetService__openSpreadsheetW (w : World) (spreadsheetId : JsVal) (context : String) :
    Except JsError Spreadsheet :=
  match spreadsheetId with
  | .str s =>
    match jsAssoc w s with
    | some ss => .ok ss
    | none =>
      .error (ErrorHandler_createError (context ++ ": Failed to open spreadsheet")
        (some "SPREADSHEET_NOT_FOUND"))
  | _ =>
    .error (ErrorHandler_createError (context ++ ": Failed to open spreadsheet")
      (some "SPREADSHEET_NOT_FOUND"))

/-- `SheetService_readSheetData(spreadsheetId, sheetName, range, context)`:
validate, resolve, read the range and drop fully-empty rows (a row is
kept iff some cell is non-empty).  An unparsable range makes `getRange`
throw a host error (modelled with `code = none`). -/
def SheetService_readSheetData (w : World) (spreadsheetId sheetName range : JsVal)
    (context : String) : Except JsError (List (List String)) :=
  match Validators_validateSpreadsheetId spreadsheetId (context ++ ".spreadsheetId") with
  | .error e => .error e
  | .ok _ =>
  match Validators_validateSheetName sheetName (context ++ ".sheetName") with
  | .error e => .error e
  | .ok _ =>
  match Validators_validateRange range (context ++ ".range") with
  | .error e => .error e
  | .ok _ =>
  match SheetService__openSpreadsheetW w spreadsheetId context with
  | .error e => .error e
  | .ok spreadsheet =>
  match sheetName with
  | .str sn =>
    match jsAssoc spreadsheet.sheets sn with
    | none =>
      .error (ErrorHandler_createError (context ++ ": Sheet \"" ++ sn ++ "\" not found")
        (some "SHEET_NOT_FOUND"))
    | some sheet =>
      match range with
      | .str rs =>
        match parseA1 rs with
        | none => .error (JsError.mk "Range not found" none)
        | some rgn =>
          .ok ((sheet.readA1 rgn).filter (fun row => row.any (fun cell => !(cell = ""))))
      | _ => .error (JsError.mk "Range not found" none)
  | other =>
    .error (ErrorHandler_createError
      (context ++ ": Sheet \"" ++ jsShow other ++ "\" not found") (some "SHEET_NOT_FOUND"))

/-- The result object of `DataPusher._pushToTarget`. -/
structure TargetResult where
  spreadsheetId : JsVal
  sheetName : JsVal
  rowsInserted : Nat
  columnsInserted : Nat
  timestamp : String
deriving DecidableEq, Repr

/-- `DataPusher._pushToTarget(data, target, context)`: open the target,
clear rows 2..lastRow across all columns when the sheet has content below
the header, write `data` at row 2 column 1, and stamp the script
timestamp note.  Any failure is wrapped as
`'Failed to push data to target: ...'` with `GENERAL_ERROR`; writes
performed before the failure persist. -/
def DataPusher__pushToTarget (env : Env) (w : World) (data : List (List String))
    (target : PushTarget) (context : String) : Except JsError TargetResult × List Ev :=
  match SheetService__openSpreadsheetW w target.spreadsheetId context with
  | .error e =>
    (.error (ErrorHandler_createError ("Failed to push data to target: " ++ e.message)
      (some "GENERAL_ERROR")), [])
  | .ok spreadsheet =>
    let sheetLookup : Option (String × Sheet) :=
      match target.sheetName with
      | .str sn => (jsAssoc spreadsheet.sheets sn).map (fun sh => (sn, sh))
      | _ => none
    match Validators_validateSheet sheetLookup.isSome target.sheetName context with
    | .error e =>
      (.error (ErrorHandler_createError ("Failed to push data to target: " ++ e.message)
        (some "GENERAL_ERROR")), [])
    | .ok _ =>
      match sheetLookup with
      | none =>
        (.error (ErrorHandler_createError ("Failed to push data to target: sheet missing")
          (some "GENERAL_ERROR")), [])
      | some found =>
        let sn := found.1
        let sheet := found.2
        let ssId := jsShow target.spreadsheetId
        let lastRow := sheet.getLastRow
        let clearEvs : List Ev :=
          if lastRow > 1 then [Ev.clearRect ssId sn 2 1 (lastRow - 1) sheet.maxColumns] else []
        if data.length > 0 then
          if data.all (fun row => row.length = (data.headD []).length) then
            (.ok { spreadsheetId := target.spreadsheetId
                   sheetName := target.sheetName
                   rowsInserted := data.length
                   columnsInserted := (data.headD []).length
                   timestamp := env.nowIso },
             clearEvs ++ [Ev.setValues ssId sn 2 1 data,
               Ev.setNote ssId sn (env.nowFormatted ++ " by script")])
          else
            (.error (ErrorHandler_createError
              ("Failed to push data to target: setValues row length mismatch")
              (some "GENERAL_ERROR")), clearEvs)
        else
          (.ok { spreadsheetId := target.spreadsheetId
                 sheetName := target.sheetName
                 rowsInserted := 0
                 columnsInserted := 0
                 timestamp := env.nowIso },
           clearEvs ++ [Ev.setNote ssId sn (env.nowFormatted ++ " by script")])

/-- Per-target validation inside `Validators_validatePushDataConfig`. -/
def Validators_validateTargetsAux : List PushTarget → Nat → String → Except JsError Unit
  | [], _, _ => .ok ()
  | target :: rest, index, context =>
    let targetContext := context ++ ".targets[" ++ toString index ++ "]"
    match ErrorHandler_validateRequired
        [("spreadsheetId", target.spreadsheetId), ("sheetName", target.sheetName)]
        ["spreadsheetId", "sheetName"] targetContext with
    | .error e => .error e
    | .ok _ =>
      match Validators_validateSpreadsheetId target.spreadsheetId
          (targetContext ++ ".spreadsheetId") with
      | .error e => .error e
      | .ok _ =>
        match Validators_validateSheetName target.sheetName (targetContext ++ ".sheetName") with
        | .error e => .error e
        | .ok _ => Validators_validateTargetsAux rest (index + 1) context

/-- `Validators_validatePushDataConfig(config, context)`.  In this model
the `targets` field is always an array value, which `validateRequired`
never counts as missing (represented by a placeholder non-missing value). -/
def Validators_validatePushDataConfig (config : Option PushConfig) (context : String) :
    Except JsError Unit :=
  match config with
  | none =>
    .error (ErrorHandler_createError (context ++ ": Configuration must be an object")
      (some "MISSING_PARAMETERS"))
  | some c =>
    match ErrorHandler_validateRequired [("range", c.range), ("targets", .boolean true)]
        ["range", "targets"] context with
    | .error e => .error e
    | .ok _ =>
      match Validators_validateRange c.range (context ++ ".range") with
      | .error e => .error e
      | .ok _ =>
        if c.targets.isEmpty then
          .error (ErrorHandler_createError (context ++ ": Targets must be a non-empty array")
            (some "MISSING_PARAMETERS"))
        else Validators_validateTargetsAux c.targets 0 context

/-- One entry of the per-target result list of `DataPusher.pushSingleSheet`. -/
structure TargetEntry where
  success : Bool
  target : PushTarget
  result : Option TargetResult
  error : Option String
deriving DecidableEq, Repr

/-- The per-target loop of `DataPusher.pushSingleSheet`: each target is
pushed inside a `try`/`catch`; a failure is recorded and the remaining
targets still run, against the world updated by the preceding writes. -/
def DataPusher_targetLoop (env : Env) (w : World) (data : List (List String)) :
    List PushTarget → Nat → String → List TargetEntry × List Ev
  | [], _, _ => ([], [])
  | target :: rest, i, context =>
    let targetContext := context ++ ".target[" ++ toString i ++ "]"
    let run := DataPusher__pushToTarget env w data target targetContext
    let entry : TargetEntry :=
      match run.1 with
      | .ok r => { success := true, target := target, result := some r, error := none }
      | .error e =>
        { success := false, target := target, result := none,
          error := some (ErrorHandler_handle env.nowIso e targetContext) }
    let tail := DataPusher_targetLoop env (w.replay run.2) data rest (i + 1) context
    (entry :: tail.1, run.2 ++ tail.2)

/-- The result object of `DataPusher.pushSingleSheet`. -/
structure PushSingleResult where
  sourceSheet : String
  sourceRange : JsVal
  sourceRowCount : Nat
  sourceColumnCount : Nat
  targetResults : List TargetEntry
  timestamp : String
deriving DecidableEq, Repr

/-- `DataPusher.pushSingleSheet(sourceSheetName, config, context)`:
validate the configuration, read the source range from the main
spreadsheet, then push to each target in order. -/
def DataPusher_pushSingleSheet (env : Env) (w : World) (sourceSheetName : String)
    (config : PushConfig) (context : String) : Except JsError PushSingleResult × List Ev :=
  match Validators_validatePushDataConfig (some config) context with
  | .error e => (.error e, [])
  | .ok _ =>
  match SheetService_readSheetData w (.str env.mainId) (.str sourceSheetName) config.range
      (context ++ ".readSource") with
  | .error e => (.error e, [])
  | .ok sourceData =>
    let run := DataPusher_targetLoop env w sourceData config.targets 0 context
    (.ok { sourceSheet := sourceSheetName
           sourceRange := config.range
           sourceRowCount := sourceData.length
           sourceColumnCount := if sourceData.length > 0 then (sourceData.headD []).length else 0
           targetResults := run.1
           timestamp := env.nowIso }, run.2)

/-- The per-source-sheet pass of `DataPusher._validatePushConfigurations`:
configuration validation plus accessibility of every target spreadsheet,
any failure re-wrapped as `MISSING_PARAMETERS` naming the source sheet. -/
def DataPusher_validateSourceAux (ws : List (String × List String)) :
    List (String × PushConfig) → Except JsError Unit
  | [] => .ok ()
  | (sheetName, config) :: rest =>
    let targetsBlock : List PushTarget → Except JsError Unit :=
      fun targets => targets.foldr
        (fun target acc =>
          match SheetService_getSpreadsheetMetadata ws target.spreadsheetId with
          | .error _ =>
            .error (ErrorHandler_createError
              ("Target spreadsheet not accessible: " ++ jsShow target.spreadsheetId)
              (some "SPREADSHEET_NOT_FOUND"))
          | .ok _ => acc) (.ok ())
    let tryBlock : Except JsError Unit :=
      match Validators_validatePushDataConfig (some config) ("sourceSheets." ++ sheetName) with
      | .error e => .error e
      | .ok _ => targetsBlock config.targets
    match tryBlock with
    | .error _ =>
      .error (ErrorHandler_createError
        ("Push configuration validation failed for sheet: " ++ sheetName)
        (some "MISSING_PARAMETERS"))
    | .ok _ => DataPusher_validateSourceAux ws rest

/-- `DataPusher._validatePushConfigurations()`. -/
def DataPusher__validatePushConfigurations (env : Env) (ws : List (String × List String)) :
    Except JsError Unit :=
  if env.pushConfigs.isEmpty then
    .error (ErrorHandler_createError "No source sheets configured" (some "MISSING_PARAMETERS"))
  else
    match SheetService_getSpreadsheetMetadata ws (.str env.mainId) with
    | .error e => .error e
    | .ok _ =>
      match DataPusher_validateSourceAux ws env.pushConfigs with
      | .error e => .error e
      | .ok _ =>
        SheetService_validateRequiredSheets ws (.str env.mainId)
          (env.pushConfigs.map (fun p => JsVal.str p.1)) "Push data validation"

/-- One entry of the result list of `DataPusher.pushAllData`. -/
structure PushItemResult where
  success : Bool
  sourceSheet : String
  result : Option PushSingleResult
  error : Option String
deriving DecidableEq, Repr

/-- The `for...of Object.entries(sourceSheets)` loop of
`DataPusher.pushAllData`: one entry per source sheet, failures caught per
item, the world threaded through the recorded writes.  The source
contains no inter-item sleep. -/
def DataPusher_pushLoop (env : Env) (w : World) :
    List (String × PushConfig) → List PushItemResult × List Ev
  | [] => ([], [])
  | (sheetName, config) :: rest =>
    let run := DataPusher_pushSingleSheet env w sheetName config "Single sheet push"
    let entry : PushItemResult :=
      match run.1 with
      | .ok r => { success := true, sourceSheet := sheetName, result := some r, error := none }
      | .error e =>
        { success := false, sourceSheet := sheetName, result := none,
          error := some (ErrorHandler_handle env.nowIso e
            ("Pushing data from " ++ sheetName)) }
    let tail := DataPusher_pushLoop env (w.replay run.2) rest
    (entry :: tail.1, run.2 ++ tail.2)

/-- `DataPusher.pushAllData()`: pre-flight validation of every push
configuration, then the sequential per-source-sheet loop. -/
def DataPusher_pushAllData (env : Env) (w : World) :
    Except JsError (List PushItemResult) × List Ev :=
  match DataPusher__validatePushConfigurations env w.structureOf with
  | .error e => (.error e, [])
  | .ok _ =>
    let run := DataPusher_pushLoop env w env.pushConfigs
    (.ok run.1, run.2)

/-- Decidable equality for thrown-or-returned outcomes, for concrete
evaluation. -/
instance {eTy aTy : Type} [DecidableEq eTy] [DecidableEq aTy] : DecidableEq (Except eTy aTy) :=
  fun a b =>
    match a, b with
    | .ok x, .ok y =>
      if h : x = y then .isTrue (by rw [h]) else .isFalse (fun hc => h (Except.ok.inj hc))
    | .error x, .error y =>
      if h : x = y then .isTrue (by rw [h]) else .isFalse (fun hc => h (Except.error.inj hc))
    | .ok _, .error _ => .isFalse (fun hc => Except.noConfusion hc)
    | .error _, .ok _ => .isFalse (fun hc => Except.noConfusion hc)

/-- The structural condition checked by `Validators_validateEmailConfig`,
as a context-free predicate. -/
def configStructCond (c : EmailConfig) : Bool :=
  (!jsMissing c.label && !jsMissing c.sheetName && !jsMissing c.rangeToClear) &&
    jsNonBlank c.sheetName && jsNonBlank c.rangeToClear && jsNonBlank c.label

/-- Structural validity of an email configuration, as the source decides
it (with its default context string). -/
def configStructValid (c : EmailConfig) : Bool :=
  (Validators_validateEmailConfig (some c) "Email configuration").isOk

/-- Is the sheet named by this value (a string) listed among the existing
sheet names?  (`existingSheets.indexOf(v)` finds nothing for a non-string.) -/
def sheetListedIn (v : JsVal) (names : List String) : Bool :=
  match v with
  | .str s => names.contains s
  | _ => false

/-- Fixture: an Excel attachment, message, empty sheet and a fully
operational environment used to instantiate the batch theorems.  Label
`L2` exists but has no conversations, so the second configuration fails
mid-batch while configurations 1 and 3 succeed. -/
def fixtureAttachment : Attachment :=
  { name := "report.xlsx", contentType := MIME_EXCEL, size := 100 }

def fixtureMessage : GmailMessage :=
  { subject := "Daily", date := 5, attachments := [fixtureAttachment] }

def emptySheet : Sheet := { cells := [], maxColumns := 8, note := none }

def fixtureEnv : Env :=
  { gmailLabels := [("L1", [[fixtureMessage]]), ("L2", []), ("L3", [[fixtureMessage]])]
    driveCreate := fun _ => .ok ()
    driveConvert := fun _ => .ok "CONV1"
    converted := fun id _ =>
      if id = "CONV1" then .ok (some [["h1", "h2"], ["a", "b"]])
      else .error (JsError.mk "not found" none)
    mainId := "MAIN"
    emailConfigs := [⟨.str "L1", .str "S1", .str "A2:B"⟩, ⟨.str "L2", .str "S2", .str "A2:B"⟩,
      ⟨.str "L3", .str "S3", .str "A2:B"⟩]
    pushConfigs :=
      [("P1", { range := .str "A2:B",
                targets := [{ spreadsheetId := .str "T1", sheetName := .str "D1" }] }),
       ("P2", { range := .str "A2:B",
                targets := [{ spreadsheetId := .str "T1", sheetName := .str "D2" }] })]
    retryMax := 3
    retryDelay := 1000
    nowIso := "T0"
    nowFormatted := "D0" }

def fixtureWorld : World :=
  [("MAIN", { name := "Main",
              sheets := [("S1", emptySheet), ("S2", emptySheet), ("S3", emptySheet),
                ("P1", { cells := [["h", "h"], ["x", "y"]], maxColumns := 2, note := none }),
                ("P2", { cells := [["h", "h"], ["z", "w"]], maxColumns := 2, note := none })] }),
   ("T1", { name := "Tgt", sheets := [("D1", emptySheet), ("D2", emptySheet)] })]

/-- Fixture for C1: the second configuration is structurally invalid (its
`rangeToClear` is `undefined`). -/
def fixtureEnvBadConfig : Env :=
  { fixtureEnv with
    emailConfigs := [⟨.str "L1", .str "S1", .str "A2:B"⟩, ⟨.str "L2", .str "S2", .undef⟩] }

/-- Fixture operation for the retry witness: fails on its first
invocation, succeeds on the second. -/
def retryFixtureOp : Nat → Except JsError Nat :=
  fun j => if j = 1 then .error (JsError.mk "boom" none) else .ok 42

def retryFixtureErr : Nat → JsError := fun _ => JsError.mk "boom" none

/-! ## Theorems -/

/-- A string accepted by the validator's range pattern is accepted by the
range parser as well. -/
theorem parseA1_isSome_of_rangePattern (s : String) (h : rangePattern s = true) :
    (parseA1 s).isSome = true := by
  unfold rangePattern at h
  unfold parseA1
  rcases hs : s.toList.splitOn ':' with _ | ⟨p, _ | ⟨q, _ | _⟩⟩ <;> rw [hs] at h <;>
    simp_all [colPart]

/-- `World.updateSheet` never changes which spreadsheets and sheets exist. -/
theorem World.structureOf_updateSheet (w : World) (id name : String) (f : Sheet → Sheet) :
    (w.updateSheet id name f).structureOf = w.structureOf := by
  unfold World.structureOf World.updateSheet
  rw [List.map_map]
  refine List.map_congr_left (fun p _ => ?_)
  dsimp only [Function.comp]
  split
  · dsimp only
    rw [List.map_map]
    refine congrArg _ (List.map_congr_left (fun q _ => ?_))
    dsimp only [Function.comp]
    split <;> rfl
  · rfl

/-- No event changes which spreadsheets and sheets exist. -/
theorem World.structureOf_applyEv (w : World) (ev : Ev) :
    (w.applyEv ev).structureOf = w.structureOf := by
  cases ev <;> simp only [World.applyEv, World.structureOf_updateSheet]

/-- Replaying any event list preserves the structure of the world: the
pipeline mutates cell contents and notes only.  This justifies the batch
orchestrator reading the world structure once, up front. -/
theorem World.structureOf_replay (w : World) (evs : List Ev) :
    (w.replay evs).structureOf = w.structureOf := by
  induction evs generalizing w with
  | nil => rfl
  | cons ev evs ih => rw [World.replay, ih, World.structureOf_applyEv]

theorem getD_append_left {α : Type} (l l' : List α) (d : α) (n : Nat) (h : n < l.length) :
    (l ++ l').getD n d = l.getD n d := by
  rw [List.getD_eq_getElem?_getD, List.getD_eq_getElem?_getD, List.getElem?_append, if_pos h]

theorem getD_append_right {α : Type} (l l' : List α) (d : α) (n : Nat) (h : l.length ≤ n) :
    (l ++ l').getD n d = l'.getD (n - l.length) d := by
  rw [List.getD_eq_getElem?_getD, List.getD_eq_getElem?_getD, List.getElem?_append,
    if_neg (by omega)]

theorem length_takePadRows (cells : List (List String)) (n : Nat) :
    (takePadRows cells n).length = n := by
  simp only [takePadRows, List.length_take, List.length_append, List.length_replicate]
  omega

theorem takePadRows_one_getD (cells : List (List String)) :
    (takePadRows cells 1).getD 0 [] = cells.getD 0 [] := by
  cases cells <;> rfl

theorem length_writeRows (cells : List (List String)) (c0 : Nat) :
    ∀ (data : List (List String)) (idx0 : Nat),
      (writeRows cells idx0 c0 data).length = data.length := by
  intro data
  induction data with
  | nil => intro idx0; rfl
  | cons rd rds ih => intro idx0; simp [writeRows, ih]

theorem writeRows_getD (cells : List (List String)) (c0 : Nat) :
    ∀ (data : List (List String)) (idx0 i : Nat), i < data.length →
      (writeRows cells idx0 c0 data).getD i [] =
        writeRow (cells.getD (idx0 + i) []) c0 (data.getD i []) := by
  intro data
  induction data with
  | nil => intro idx0 i h; simp at h
  | cons rd rds ih =>
    intro idx0 i h
    cases i with
    | zero => simp [writeRows]
    | succ i =>
      have h' : i < rds.length := by simp at h; omega
      simp only [writeRows, List.getD_cons_succ]
      rw [ih (idx0 + 1) i h']
      have harith : idx0 + 1 + i = idx0 + (i + 1) := by omega
      rw [harith]

theorem takePad_zero (row : List String) : takePad row 0 = [] := by
  simp [takePad]

/-- The blank test `s = "" || jsTrim s = ""` collapses to the trim test,
since the empty string trims to itself. -/
theorem blankCond_eq (s : String) :
    (decide (s = "") || decide (jsTrim s = "")) = decide (jsTrim s = "") := by
  by_cases ht : jsTrim s = ""
  · simp [ht]
  · have hs : ¬(s = "") := fun h => ht (by rw [h]; decide)
    simp [hs, ht]

/-- A string with non-blank trim is non-empty. -/
theorem ne_empty_of_jsTrim_ne (s : String) (h : jsTrim s ≠ "") : s ≠ "" :=
  fun hc => h (by rw [hc]; rfl)

/-- The truthiness-and-trim test of the string validators does not depend
on the context argument, only on the value. -/
theorem isOk_validateSheetName (v : JsVal) (ctx : String) :
    (Validators_validateSheetName v ctx).isOk = jsNonBlank v := by
  cases v with
  | str s =>
    simp only [Validators_validateSheetName, jsNonBlank, blankCond_eq]
    by_cases ht : jsTrim s = "" <;> simp [ht, Except.isOk, Except.toBool]
  | undef => rfl
  | null => rfl
  | num n => rfl
  | boolean b => rfl

theorem isOk_validateGmailLabel (v : JsVal) (ctx : String) :
    (Validators_validateGmailLabel v ctx).isOk = jsNonBlank v := by
  cases v with
  | str s =>
    simp only [Validators_validateGmailLabel, jsNonBlank, blankCond_eq]
    by_cases ht : jsTrim s = "" <;> simp [ht, Except.isOk, Except.toBool]
  | undef => rfl
  | null => rfl
  | num n => rfl
  | boolean b => rfl

theorem isOk_validateRange (v : JsVal) (ctx : String) :
    (Validators_validateRange v ctx).isOk = jsNonBlank v := by
  cases v with
  | str s =>
    simp only [Validators_validateRange, jsNonBlank, blankCond_eq]
    by_cases ht : jsTrim s = "" <;> simp [ht, Except.isOk, Except.toBool]
  | undef => rfl
  | null => rfl
  | num n => rfl
  | boolean b => rfl

theorem isOk_validateRequired_emailFields (c : EmailConfig) (ctx : String) :
    (ErrorHandler_validateRequired
      [("label", c.label), ("sheetName", c.sheetName), ("rangeToClear", c.rangeToClear)]
      ["label", "sheetName", "rangeToClear"] ctx).isOk =
    (!jsMissing c.label && !jsMissing c.sheetName && !jsMissing c.rangeToClear) := by
  unfold ErrorHandler_validateRequired
  simp only [List.filter, jsAssoc]
  cases h1 : jsMissing c.label <;> cases h2 : jsMissing c.sheetName <;>
    cases h3 : jsMissing c.rangeToClear <;> simp [h1, h2, h3, Except.isOk, Except.toBool]

theorem isOk_validateEmailConfig (c : EmailConfig) (ctx : String) :
    (Validators_validateEmailConfig (some c) ctx).isOk = configStructCond c := by
  unfold Validators_validateEmailConfig configStructCond
  rw [← isOk_validateRequired_emailFields c ctx,
    ← isOk_validateSheetName c.sheetName (ctx ++ ".sheetName"),
    ← isOk_validateRange c.rangeToClear (ctx ++ ".rangeToClear"),
    ← isOk_validateGmailLabel c.label (ctx ++ ".label")]
  cases hreq : ErrorHandler_validateRequired
      [("label", c.label), ("sheetName", c.sheetName), ("rangeToClear", c.rangeToClear)]
      ["label", "sheetName", "rangeToClear"] ctx with
  | error e => simp [hreq, Except.isOk, Except.toBool]
  | ok u =>
    cases hn : Validators_validateSheetName c.sheetName (ctx ++ ".sheetName") with
    | error e => simp [hreq, hn, Except.isOk, Except.toBool]
    | ok u2 =>
      cases hr : Validators_validateRange c.rangeToClear (ctx ++ ".rangeToClear") with
      | error e => simp [hreq, hn, hr, Except.isOk, Except.toBool]
      | ok u3 =>
        cases hl : Validators_validateGmailLabel c.label (ctx ++ ".label") with
        | error e => simp [hreq, hn, hr, hl, Except.isOk, Except.toBool]
        | ok u4 => simp [hreq, hn, hr, hl, Except.isOk, Except.toBool]

theorem configStructValid_eq (c : EmailConfig) (ctx : String) :
    (Validators_validateEmailConfig (some c) ctx).isOk = configStructValid c := by
  rw [isOk_validateEmailConfig, configStructValid, isOk_validateEmailConfig]

/-- The batch loop, in closed form: one recorded entry and one event
segment per configuration, each a function of the environment, the world
structure, the item's index and the item's own configuration only, with a
500 ms sleep between consecutive segments and none after the last. -/
theorem EmailProcessor_processLoop_spec (env : Env) (ws : List (String × List String))
    (total : Nat) :
    ∀ (cs : List EmailConfig) (i : Nat), i + cs.length = total →
      EmailProcessor_processLoop env ws total cs i =
        ((List.enumFrom i cs).map (fun p => EmailProcessor_itemOutcome env ws p.1 p.2),
         sleepSeparated ((List.enumFrom i cs).map
           (fun p => EmailProcessor_itemEvents env ws p.1 p.2))) := by
  intro cs
  induction cs with
  | nil => intro i h; rfl
  | cons c rest ih =>
    intro i h
    simp only [EmailProcessor_processLoop, List.enumFrom, List.map_cons]
    rw [ih (i + 1) (by simp only [List.length_cons] at h; omega)]
    cases rest with
    | nil =>
      have hlast : ¬(i < total - 1) := by simp only [List.length_cons, List.length_nil] at h; omega
      simp [hlast, sleepSeparated]
    | cons c2 rest2 =>
      have hmid : i < total - 1 := by simp only [List.length_cons] at h; omega
      simp [hmid, sleepSeparated]

/-- If the per-configuration pre-flight pass succeeds, every
configuration in the list is structurally valid and names an existing
Gmail label. -/
theorem EmailProcessor_validateConfigsAux_ok (env : Env) :
    ∀ (cs : List EmailConfig) (i : Nat), EmailProcessor_validateConfigsAux env cs i = .ok () →
      ∀ c ∈ cs, configStructValid c = true ∧ EmailService_labelExists env c.label = true := by
  intro cs
  induction cs with
  | nil => intro i h c hc; simp at hc
  | cons c0 rest ih =>
    intro i h c hc
    cases hv : Validators_validateEmailConfig (some c0)
        ("CONFIG.EMAIL_CONFIGS[" ++ toString i ++ "]") with
    | error e => simp [EmailProcessor_validateConfigsAux, hv] at h
    | ok u =>
      cases hl : EmailService_labelExists env c0.label with
      | false => simp [EmailProcessor_validateConfigsAux, hv, hl] at h
      | true =>
        have hrest : EmailProcessor_validateConfigsAux env rest (i + 1) = .ok () := by
          simpa [EmailProcessor_validateConfigsAux, hv, hl] using h
        rcases List.mem_cons.mp hc with rfl | hc'
        · refine ⟨?_, hl⟩
          have := configStructValid_eq c ("CONFIG.EMAIL_CONFIGS[" ++ toString i ++ "]")
          rw [hv] at this
          simpa [Except.isOk, Except.toBool] using this.symm
        · exact ih (i + 1) hrest c hc'

/-- If `SheetService_validateRequiredSheets` succeeds, the spreadsheet
opened and every required sheet name is listed in it. -/
theorem SheetService_validateRequiredSheets_ok (ws : List (String × List String)) (id : JsVal)
    (req : List JsVal) (ctx : String)
    (h : SheetService_validateRequiredSheets ws id req ctx = .ok ()) :
    ∀ v ∈ req, ∀ names, SheetService__openSpreadsheet ws id ctx = .ok names →
      sheetListedIn v names = true := by
  intro v hv names hopen
  unfold SheetService_validateRequiredSheets at h
  rw [hopen] at h
  simp only at h
  cases hf : req.filter (fun n =>
      match n with
      | .str s => !names.contains s
      | _ => true) with
  | cons m ms => rw [hf] at h; simp at h
  | nil =>
    rw [hf] at h
    have hall := List.filter_eq_nil_iff.mp hf v hv
    cases v with
    | str s => simpa [sheetListedIn] using hall
    | undef => simp at hall
    | null => simp at hall
    | num n => simp at hall
    | boolean b => simp at hall

/-- C1: For every configuration list of size >= 1, the batch orchestrator
(EmailProcessor_processAllConfigs) validates every config item
(structural validity, label existence, and destination-sheet
reachability) before processing any item, so that if any config in the
list is structurally invalid, the whole call fails before any write to
any destination occurs (no item, including earlier valid ones, produces a
write).  Formalised: if any configuration of the list is structurally
invalid — or fails either of the other two pre-flight checks — the whole
call returns the thrown error together with an empty event trace, so no
clear, write or note reached any destination. -/
theorem EmailProcessor_preflight_blocks_all_writes (env : Env) (w : World)
    (hlen : 1 ≤ env.emailConfigs.length)
    (hbad : ∃ i, i < env.emailConfigs.length ∧
      (configStructValid (env.emailConfigs.getD i default) = false ∨
       EmailService_labelExists env (env.emailConfigs.getD i default).label = false ∨
       ∀ names, jsAssoc w.structureOf env.mainId = some names →
         sheetListedIn (env.emailConfigs.getD i default).sheetName names = false)) :
    ∃ e, EmailProcessor_processAllConfigs env w = (.error e, []) := by
  obtain ⟨i, hi, hcase⟩ := hbad
  cases hpre : EmailProcessor__validateAllConfigurations env w.structureOf with
  | error e =>
    refine ⟨e, ?_⟩
    simp [EmailProcessor_processAllConfigs, hpre]
  | ok u =>
    exfalso
    have hgd : env.emailConfigs.getD i default = env.emailConfigs[i] := by
      rw [List.getD_eq_getElem?_getD, List.getElem?_eq_getElem hi]
      rfl
    have hmem : env.emailConfigs.getD i default ∈ env.emailConfigs := by
      rw [hgd]
      exact List.getElem_mem hi
    have hempty : env.emailConfigs.isEmpty = false := by
      cases hcfg : env.emailConfigs with
      | nil => rw [hcfg] at hlen; simp at hlen
      | cons a l => rfl
    unfold EmailProcessor__validateAllConfigurations at hpre
    rw [hempty] at hpre
    simp only [Bool.false_eq_true, if_false] at hpre
    cases hmeta : SheetService_getSpreadsheetMetadata w.structureOf (.str env.mainId) with
    | error e2 => rw [hmeta] at hpre; simp at hpre
    | ok meta =>
      rw [hmeta] at hpre
      simp only at hpre
      cases haux : EmailProcessor_validateConfigsAux env env.emailConfigs 0 with
      | error e3 => rw [haux] at hpre; simp at hpre
      | ok u2 =>
        rw [haux] at hpre
        simp only at hpre
        obtain ⟨hstruct, hlabel⟩ :=
          EmailProcessor_validateConfigsAux_ok env env.emailConfigs 0 haux _ hmem
        rcases hcase with hc | hc | hc
        · rw [hstruct] at hc; exact absurd hc (by simp)
        · rw [hlabel] at hc; exact absurd hc (by simp)
        · cases hopen : SheetService__openSpreadsheet w.structureOf (.str env.mainId)
              "Email processor validation" with
          | error e4 =>
            unfold SheetService_validateRequiredSheets at hpre
            rw [hopen] at hpre
            simp at hpre
          | ok names =>
            have hlisted := SheetService_validateRequiredSheets_ok w.structureOf
              (.str env.mainId) (env.emailConfigs.map EmailConfig.sheetName)
              "Email processor validation" hpre
              ((env.emailConfigs.getD i default).sheetName)
              (List.mem_map_of_mem EmailConfig.sheetName hmem) names hopen
            have hassoc : jsAssoc w.structureOf env.mainId = some names := by
              unfold SheetService__openSpreadsheet at hopen
              simp only at hopen
              cases hj : jsAssoc w.structureOf env.mainId with
              | none => rw [hj] at hopen; simp at hopen
              | some names2 =>
                rw [hj] at hopen
                simp only at hopen
                injection hopen with h5
                rw [h5]
            rw [hc names hassoc] at hlisted
            exact absurd hlisted (by simp)

/-- Witness for C1 at a concrete input: a two-item list whose second
configuration lacks its `rangeToClear`; the batch call fails with no
events emitted. -/
theorem EmailProcessor_preflight_blocks_all_writes_witness :
    1 ≤ fixtureEnvBadConfig.emailConfigs.length ∧
      ∃ e, EmailProcessor_processAllConfigs fixtureEnvBadConfig fixtureWorld = (.error e, []) :=
  ⟨by decide,
   EmailProcessor_preflight_blocks_all_writes fixtureEnvBadConfig fixtureWorld (by decide)
     ⟨1, by decide, Or.inl (by decide)⟩⟩

/-- C2: For every configuration list that passes pre-flight validation,
a failure raised while processing one item is caught at the per-item
level, recorded as `{success: false, error}`, and does not prevent any
other item from being processed.  Formalised: the batch returns `ok` (it
never aborts after pre-flight) with exactly one entry per configuration,
and entry `i` equals `EmailProcessor_itemOutcome env ws i config_i` — a
function of the read-only environment, the (replay-invariant) world
structure, the index and that configuration alone, so a sibling's failure
or success cannot change it; the last conjunct is the recorded shape of a
failing item. -/
theorem EmailProcessor_item_failure_isolated (env : Env) (w : World)
    (hpre : EmailProcessor__validateAllConfigurations env w.structureOf = .ok ()) :
    (EmailProcessor_processAllConfigs env w).1 =
      .ok ((List.enumFrom 0 env.emailConfigs).map
        (fun p => EmailProcessor_itemOutcome env w.structureOf p.1 p.2)) ∧
    ((List.enumFrom 0 env.emailConfigs).map
        (fun p => EmailProcessor_itemOutcome env w.structureOf p.1 p.2)).length =
      env.emailConfigs.length ∧
    ∀ (i : Nat) (config : EmailConfig) (e : JsError),
      (EmailProcessor_processSingleConfig env w.structureOf config
        (EmailProcessor_configContext i config)).1 = .error e →
      EmailProcessor_itemOutcome env w.structureOf i config =
        { success := false, config := config.sheetName, label := config.label, result := none,
          error := some (ErrorHandler_handle env.nowIso e
            ("Processing " ++ jsShow config.sheetName)) } := by
  refine ⟨?_, by simp, ?_⟩
  · simp only [EmailProcessor_processAllConfigs, hpre]
    rw [EmailProcessor_processLoop_spec env w.structureOf env.emailConfigs.length
      env.emailConfigs 0 (by simp)]
  · intro i config e he
    unfold EmailProcessor_itemOutcome
    rw [he]

/-- Witness for C2 at a concrete input: three configurations, the second
of which fails mid-batch (its label has no conversations) while items 1
and 3 are processed successfully. -/
theorem EmailProcessor_item_failure_isolated_witness :
    EmailProcessor__validateAllConfigurations fixtureEnv fixtureWorld.structureOf = .ok () ∧
      (EmailProcessor_processAllConfigs fixtureEnv fixtureWorld).1 =
        .ok ((List.enumFrom 0 fixtureEnv.emailConfigs).map
          (fun p => EmailProcessor_itemOutcome fixtureEnv fixtureWorld.structureOf p.1 p.2)) :=
  ⟨by decide, (EmailProcessor_item_failure_isolated fixtureEnv fixtureWorld (by decide)).1⟩

theorem DataPusher_pushToTarget_no_sleep (env : Env) (w : World) (data : List (List String))
    (target : PushTarget) (ctx : String) :
    ((DataPusher__pushToTarget env w data target ctx).2).all (fun e => !e.isSleep) = true := by
  unfold DataPusher__pushToTarget
  simp only [Validators_validateSheet]
  repeat' split
  all_goals simp [Ev.isSleep]

theorem DataPusher_targetLoop_no_sleep (env : Env) (data : List (List String)) :
    ∀ (targets : List PushTarget) (w : World) (i : Nat) (ctx : String),
      ((DataPusher_targetLoop env w data targets i ctx).2).all (fun e => !e.isSleep) = true := by
  intro targets
  induction targets with
  | nil => intro w i ctx; rfl
  | cons t rest ih =>
    intro w i ctx
    simp only [DataPusher_targetLoop, List.all_append, Bool.and_eq_true]
    exact ⟨DataPusher_pushToTarget_no_sleep env w data t _, ih _ (i + 1) ctx⟩

theorem DataPusher_pushSingleSheet_no_sleep (env : Env) (w : World) (name : String)
    (config : PushConfig) (ctx : String) :
    ((DataPusher_pushSingleSheet env w name config ctx).2).all (fun e => !e.isSleep) = true := by
  unfold DataPusher_pushSingleSheet
  repeat' split
  all_goals try rfl
  all_goals exact DataPusher_targetLoop_no_sleep env _ _ w 0 ctx

theorem DataPusher_pushLoop_no_sleep (env : Env) :
    ∀ (configs : List (String × PushConfig)) (w : World),
      ((DataPusher_pushLoop env w configs).2).all (fun e => !e.isSleep) = true := by
  intro configs
  induction configs with
  | nil => intro w; rfl
  | cons p rest ih =>
    intro w
    simp only [DataPusher_pushLoop, List.all_append, Bool.and_eq_true]
    exact ⟨DataPusher_pushSingleSheet_no_sleep env w p.1 p.2 "Single sheet push", ih _⟩

/-- C4 (amended): the email-ingestion orchestrator inserts a fixed 500 ms
pause between the processing of consecutive config items and none after
the last; the sheet-to-sheet push orchestrator (`DataPusher.pushAllData`)
inserts no pause at all — its event trace contains no sleep event. -/
theorem batch_pause_policy (env : Env) (w : World) :
    (EmailProcessor__validateAllConfigurations env w.structureOf = .ok () →
      (EmailProcessor_processAllConfigs env w).2 =
        sleepSeparated ((List.enumFrom 0 env.emailConfigs).map
          (fun p => EmailProcessor_itemEvents env w.structureOf p.1 p.2))) ∧
    (DataPusher_pushAllData env w).2.filter Ev.isSleep = [] := by
  constructor
  · intro hpre
    simp only [EmailProcessor_processAllConfigs, hpre]
    rw [EmailProcessor_processLoop_spec env w.structureOf env.emailConfigs.length
      env.emailConfigs 0 (by simp)]
  · rw [List.filter_eq_nil_iff]
    intro e he
    unfold DataPusher_pushAllData at he
    split at he
    · simp at he
    · have hall := DataPusher_pushLoop_no_sleep env env.pushConfigs w
      rw [List.all_eq_true] at hall
      simpa using hall e he

/-- Counterexample for C4 as stated: a concrete two-item push batch in
which both items are processed successfully, yet the complete event trace
contains no sleep event — no 500 ms pause is inserted between the two
items of the push path. -/
theorem pushAllData_no_pause_counterexample :
    fixtureEnv.pushConfigs.length = 2 ∧
    ((DataPusher_pushAllData fixtureEnv fixtureWorld).1.toOption.getD []).map
        PushItemResult.success = [true, true] ∧
    (DataPusher_pushAllData fixtureEnv fixtureWorld).2 =
      [Ev.setValues "T1" "D1" 2 1 [["x", "y"]], Ev.setNote "T1" "D1" "D0 by script",
       Ev.setValues "T1" "D2" 2 1 [["z", "w"]], Ev.setNote "T1" "D2" "D0 by script"] := by
  refine ⟨rfl, by decide, by decide⟩

/-- Witness for the amended C4 at a concrete input: a three-item email
batch emits its items' writes with exactly one 500 ms sleep between
consecutive items. -/
theorem batch_pause_policy_witness :
    EmailProcessor__validateAllConfigurations fixtureEnv fixtureWorld.structureOf = .ok () ∧
      (EmailProcessor_processAllConfigs fixtureEnv fixtureWorld).2 =
        sleepSeparated ((List.enumFrom 0 fixtureEnv.emailConfigs).map
          (fun p => EmailProcessor_itemEvents fixtureEnv fixtureWorld.structureOf p.1 p.2)) :=
  ⟨by decide, (batch_pause_policy fixtureEnv fixtureWorld).1 (by decide)⟩

theorem ErrorHandler_retryGo_succeeds {α : Type} (op : Nat → Except JsError α) (ctx : String)
    (M : Int) (v : α) :
    ∀ (n remaining attempts : Nat) (lastErr : Option JsError),
      n + 1 ≤ remaining →
      (∀ j, 1 ≤ j → j < n + 1 → ∃ ej, op (attempts + j) = .error ej) →
      op (attempts + (n + 1)) = .ok v →
      ErrorHandler_retryGo op ctx M remaining attempts lastErr = (.ok v, attempts + (n + 1)) := by
  intro n
  induction n with
  | zero =>
    intro remaining attempts lastErr hrem hfail hok
    cases remaining with
    | zero => omega
    | succ r =>
      simp only [Nat.zero_add] at hok ⊢
      unfold ErrorHandler_retryGo
      simp only [hok]
  | succ n ih =>
    intro remaining attempts lastErr hrem hfail hok
    cases remaining with
    | zero => omega
    | succ r =>
      obtain ⟨e1, he1⟩ := hfail 1 (by omega) (by omega)
      unfold ErrorHandler_retryGo
      simp only [he1]
      have hrec := ih r (attempts + 1) (some e1) (by omega)
        (fun j hj1 hj2 => by
          obtain ⟨ej, hej⟩ := hfail (j + 1) (by omega) (by omega)
          refine ⟨ej, ?_⟩
          rw [show attempts + 1 + j = attempts + (j + 1) by omega]
          exact hej)
        (by rw [show attempts + 1 + (n + 1) = attempts + (n + 1 + 1) by omega]; exact hok)
      rw [hrec]
      rw [show attempts + 1 + (n + 1) = attempts + (n + 1 + 1) by omega]

theorem ErrorHandler_retryGo_exhausts {α : Type} (op : Nat → Except JsError α) (ctx : String)
    (M : Int) (e : Nat → JsError) :
    ∀ (remaining attempts : Nat) (lastErr : Option JsError),
      1 ≤ remaining →
      (∀ j, 1 ≤ j → j ≤ remaining → op (attempts + j) = .error (e (attempts + j))) →
      ErrorHandler_retryGo op ctx M remaining attempts lastErr =
        (.thrown (JsError.mk (retryFailureMessage ctx M (e (attempts + remaining))) none),
         attempts + remaining) := by
  intro remaining
  induction remaining with
  | zero => intro attempts lastErr h; omega
  | succ r ih =>
    intro attempts lastErr hrem hfail
    have h1 : op (attempts + 1) = .error (e (attempts + 1)) := hfail 1 (by omega) (by omega)
    unfold ErrorHandler_retryGo
    simp only [h1]
    cases r with
    | zero =>
      unfold ErrorHandler_retryGo
      simp only [Nat.zero_add]
    | succ r' =>
      have hrec := ih (attempts + 1) (some (e (attempts + 1))) (by omega)
        (fun j hj1 hj2 => by
          rw [show attempts + 1 + j = attempts + (j + 1) by omega]
          exact hfail (j + 1) (by omega) (by omega))
      rw [hrec]
      rw [show attempts + 1 + (r' + 1) = attempts + (r' + 1 + 1) by omega]

/-- C3: For every operation, every maxAttempts >= 1, and every N with
1 <= N <= maxAttempts: if the operation fails on its first N-1
invocations and succeeds on the N-th, `ErrorHandler_withRetry` invokes it
exactly N times and returns the N-th invocation's value; if it fails on
all maxAttempts invocations, `ErrorHandler_withRetry` invokes it exactly
maxAttempts times and then raises a single composite error whose message
carries the attempt count and the final error's message
(`retryFailureMessage ctx maxAttempts lastError` is literally
`ctx ++ " failed after " ++ maxAttempts ++ " attempts. Last error: " ++
lastError.message`).  The second component of the result is the final
value of the `attempts` counter, incremented exactly once per
invocation. -/
theorem ErrorHandler_withRetry_spec {α : Type} (op : Nat → Except JsError α) (M N : Nat)
    (e : Nat → JsError) (v : α) (d : Int) (ctx : String)
    (hM : 1 ≤ M) (hN1 : 1 ≤ N) (hNM : N ≤ M) :
    ((∀ j, 1 ≤ j → j < N → op j = .error (e j)) → op N = .ok v →
      ErrorHandler_withRetry op (M : Int) d ctx = (.ok v, N)) ∧
    ((∀ j, 1 ≤ j → j ≤ M → op j = .error (e j)) →
      ErrorHandler_withRetry op (M : Int) d ctx =
        (.thrown (JsError.mk (retryFailureMessage ctx (M : Int) (e M)) none), M)) := by
  constructor
  · intro hfail hok
    obtain ⟨n, rfl⟩ : ∃ n, N = n + 1 := ⟨N - 1, by omega⟩
    have hrun := ErrorHandler_retryGo_succeeds op ctx (M : Int) v n M 0 none (by omega)
      (fun j hj1 hj2 => ⟨e j, by simpa using hfail j hj1 hj2⟩)
      (by simpa using hok)
    unfold ErrorHandler_withRetry
    rw [Int.toNat_ofNat]
    simpa using hrun
  · intro hfail
    have hrun := ErrorHandler_retryGo_exhausts op ctx (M : Int) e M 0 none hM
      (fun j hj1 hj2 => by simpa using hfail j hj1 hj2)
    unfold ErrorHandler_withRetry
    rw [Int.toNat_ofNat]
    simpa using hrun

/-- Witness for C3 at a concrete input: with maxAttempts = 2, an
operation failing once then succeeding is invoked exactly twice and its
second value is returned. -/
theorem ErrorHandler_withRetry_spec_witness :
    (1 ≤ 2 ∧ (∀ j, 1 ≤ j → j < 2 → retryFixtureOp j = .error (retryFixtureErr j)) ∧
      retryFixtureOp 2 = .ok 42) ∧
    ErrorHandler_withRetry retryFixtureOp ((2 : Nat) : Int) 10 "Extract" = (.ok 42, 2) :=
  ⟨⟨by decide, fun j h1 h2 => by
      have : j = 1 := by omega
      subst this
      rfl, rfl⟩,
   (ErrorHandler_withRetry_spec retryFixtureOp 2 2 retryFixtureErr 42 10 "Extract"
      (by decide) (by decide) (by decide)).1
     (fun j h1 h2 => by
       have : j = 1 := by omega
       subst this
       rfl) rfl⟩

/-- C10: For every operation, if `ErrorHandler_withRetry` is called with
an explicit maxRetries value <= 0, the `while` body never executes: the
operation is never invoked (the attempts counter stays 0), no value is
returned, and the documented composite 'failed after N attempts' error is
not raised either — the function instead fails by reading `.message` of
the still-undefined `lastError`, a `TypeError` the documented contract
does not mention. -/
theorem ErrorHandler_withRetry_nonpositive_typeError {α : Type} (op : Nat → Except JsError α)
    (M : Int) (d : Int) (ctx : String) (hM : M ≤ 0) :
    ErrorHandler_withRetry op M d ctx = (.typeError, 0) := by
  unfold ErrorHandler_withRetry
  rw [Int.toNat_of_nonpos hM]
  rfl

/-- Witness for C10 at a concrete input: maxRetries = 0 yields the
undefined-read `TypeError` with zero invocations. -/
theorem ErrorHandler_withRetry_nonpositive_typeError_witness :
    (0 : Int) ≤ 0 ∧
      ErrorHandler_withRetry retryFixtureOp 0 10 "Extract" = (.typeError, 0) :=
  ⟨by decide, ErrorHandler_withRetry_nonpositive_typeError retryFixtureOp 0 10 "Extract" (by decide)⟩

/-- C5: For every non-empty rectangular data array, the destination
writer's insert step (`SheetService__insertData`) writes the data
starting at row 2, column 1, spanning exactly `data.length` rows by
`data[0].length` columns, and the write never touches row 1: applying the
emitted `setValues` event to any sheet leaves every cell of row 1
unchanged and puts `data[i][j]` at row `2 + i`, column `1 + j`. -/
theorem SheetService_insertData_row2 (ssId sheetName : String) (data : List (List String))
    (ctx : String) (hne : data ≠ [])
    (hrect : ∀ row ∈ data, row.length = (data.headD []).length) :
    SheetService__insertData ssId sheetName data ctx =
      (.ok data.length, [Ev.setValues ssId sheetName 2 1 data]) ∧
    ∀ sh : Sheet,
      (∀ c, Sheet.cellAt { sh with cells := writeRegion sh.cells 2 1 data } 1 c =
        sh.cellAt 1 c) ∧
      (∀ i j, i < data.length → j < (data.headD []).length →
        Sheet.cellAt { sh with cells := writeRegion sh.cells 2 1 data } (2 + i) (1 + j) =
          (data.getD i []).getD j "") := by
  have h0 : ¬(data.length = 0) := by
    intro h
    exact hne (List.length_eq_zero.mp h)
  have hall : (data.all fun row => decide (row.length = (data.headD []).length)) = true := by
    rw [List.all_eq_true]
    intro row hr
    simpa using hrect row hr
  constructor
  · unfold SheetService__insertData
    rw [if_neg h0, if_pos hall]
  · intro sh
    constructor
    · intro c
      simp only [Sheet.cellAt]
      have hrow : (writeRegion sh.cells 2 1 data).getD 0 [] = sh.cells.getD 0 [] := by
        unfold writeRegion
        rw [getD_append_left _ _ _ 0
          (by rw [List.length_append, length_takePadRows]; omega)]
        rw [getD_append_left _ _ _ 0 (by rw [length_takePadRows]; omega)]
        exact takePadRows_one_getD sh.cells
      rw [hrow]
    · intro i j hi hj
      simp only [Sheet.cellAt]
      have hidx : 2 + i - 1 = i + 1 := by omega
      rw [hidx]
      have hrow : (writeRegion sh.cells 2 1 data).getD (i + 1) [] =
          writeRow (sh.cells.getD (1 + i) []) 1 (data.getD i []) := by
        unfold writeRegion
        rw [getD_append_left _ _ _ (i + 1)
          (by rw [List.length_append, length_takePadRows, length_writeRows]; omega)]
        rw [getD_append_right _ _ _ (i + 1) (by rw [length_takePadRows]; omega)]
        rw [length_takePadRows]
        have : i + 1 - 1 = i := by omega
        rw [this]
        exact writeRows_getD sh.cells 1 data 1 i hi
      rw [hrow]
      unfold writeRow
      rw [takePad_zero]
      have hlen : (data.getD i []).length = (data.headD []).length := by
        refine hrect (data.getD i []) ?_
        rw [List.getD_eq_getElem?_getD, List.getElem?_eq_getElem hi]
        exact List.getElem_mem hi
      have hj1 : 1 + j - 1 = j := by omega
      rw [List.nil_append, hj1, getD_append_left _ _ _ j (by omega)]

/-- Witness for C5 at a concrete input: a 2 by 2 rectangular array is
inserted at row 2 column 1; row 1 of a sheet with a header row keeps its
values while rows 2 and 3 take the data. -/
theorem SheetService_insertData_row2_witness :
    ([["a", "b"], ["c", "d"]] ≠ ([] : List (List String)) ∧
      ∀ row ∈ [["a", "b"], ["c", "d"]],
        row.length = ([["a", "b"], ["c", "d"]].headD []).length) ∧
    SheetService__insertData "MAIN" "S1" [["a", "b"], ["c", "d"]] "Sheet update" =
      (.ok 2, [Ev.setValues "MAIN" "S1" 2 1 [["a", "b"], ["c", "d"]]]) :=
  ⟨⟨by decide, by decide⟩,
   (SheetService_insertData_row2 "MAIN" "S1" [["a", "b"], ["c", "d"]] "Sheet update"
     (by decide) (by decide)).1⟩

/-- C6: For every call to `SheetService_updateSheet` with valid
identifiers, a reachable sheet, and an empty data array, the call does
not raise: the `rangeToClear` is still cleared, no data is written, and
the returned result has `rowsInserted = 0` and `columnsInserted = 0`.
The emitted events are exactly the clear of the parsed range followed by
the timestamp note — no `setValues`. -/
theorem SheetService_updateSheet_empty_data (env : Env) (ws : List (String × List String))
    (sid sn rs ctx : String) (names : List String)
    (hsid : jsTrim sid ≠ "") (hsn : jsTrim sn ≠ "") (hrs : jsTrim rs ≠ "")
    (hpat : rangePattern rs = true)
    (hopen : jsAssoc ws sid = some names) (hcontains : names.contains sn = true) :
    ∃ rgn, parseA1 rs = some rgn ∧
      SheetService_updateSheet env ws (.str sid) (.str sn) (.str rs) [] ctx =
        (.ok { spreadsheetId := .str sid, sheetName := .str sn, rowsInserted := 0,
               columnsInserted := 0, rangeToClear := .str rs, timestamp := env.nowIso },
         [Ev.clearA1 sid sn rgn,
          Ev.setNote sid sn (DateUtils_createTimestampNote "Updated" env.nowFormatted)]) := by
  obtain ⟨rgn, hrgn⟩ := Option.isSome_iff_exists.mp (parseA1_isSome_of_rangePattern rs hpat)
  refine ⟨rgn, hrgn, ?_⟩
  simp only [SheetService_updateSheet, Validators_validateSpreadsheetId,
    Validators_validateSheetName, Validators_validateRange, Validators_validateDataArray,
    SheetService__openSpreadsheet, SheetService__getSheet, Validators_validateSheet,
    SheetService__clearRange, SheetService__addTimestampNote, blankCond_eq, jsShow,
    hopen, hrgn, hcontains, hsid, hsn, hrs]
  simp [hsid, hsn, hrs, ne_empty_of_jsTrim_ne sid hsid, ne_empty_of_jsTrim_ne sn hsn,
    ne_empty_of_jsTrim_ne rs hrs]

/-- Witness for C6 at a concrete input: clearing `"A2:H"` on a reachable
sheet with empty data succeeds with zero rows and columns inserted. -/
theorem SheetService_updateSheet_empty_data_witness :
    (jsTrim "M" ≠ "" ∧ jsTrim "S" ≠ "" ∧ jsTrim "A2:H" ≠ "" ∧ rangePattern "A2:H" = true ∧
      jsAssoc [("M", ["S"])] "M" = some ["S"] ∧ List.contains ["S"] "S" = true) ∧
    ∃ rgn, parseA1 "A2:H" = some rgn ∧
      SheetService_updateSheet fixtureEnv [("M", ["S"])] (.str "M") (.str "S") (.str "A2:H") []
          "Sheet update" =
        (.ok { spreadsheetId := .str "M", sheetName := .str "S", rowsInserted := 0,
               columnsInserted := 0, rangeToClear := .str "A2:H",
               timestamp := fixtureEnv.nowIso },
         [Ev.clearA1 "M" "S" rgn,
          Ev.setNote "M" "S" (DateUtils_createTimestampNote "Updated" fixtureEnv.nowFormatted)]) :=
  ⟨⟨by decide, by decide, by decide, by decide, by decide, by decide⟩,
   SheetService_updateSheet_empty_data fixtureEnv [("M", ["S"])] "M" "S" "A2:H" "Sheet update"
     ["S"] (by decide) (by decide) (by decide) (by decide) (by decide) (by decide)⟩

/-- C7: For every converted spreadsheet whose first sheet contains zero
rows or exactly one row in total, the tabular extractor returns an empty
sequence rather than failing; with more than one row it returns all rows
except row 0 (the header), preserving their order (`List.drop 1`). -/
theorem DriveService_extract_drops_header (rows : List (List String)) :
    (rows.length ≤ 1 → DriveService__extractDataFromSheet (.ok (some rows)) = .ok []) ∧
    (1 < rows.length → DriveService__extractDataFromSheet (.ok (some rows)) = .ok (rows.drop 1)) := by
  constructor
  · intro h
    have h1 : ¬(rows.length > 1) := by omega
    simp [DriveService__extractDataFromSheet, h1]
  · intro h
    simp [DriveService__extractDataFromSheet, h]

/-- Witness for C7 at concrete inputs: a three-row converted sheet loses
exactly its header row. -/
theorem DriveService_extract_drops_header_witness :
    1 < ([["h"], ["a"], ["b"]] : List (List String)).length ∧
      DriveService__extractDataFromSheet (.ok (some [["h"], ["a"], ["b"]])) =
        .ok [["a"], ["b"]] :=
  ⟨by decide, (DriveService_extract_drops_header [["h"], ["a"], ["b"]]).2 (by decide)⟩

/-- C8: For every valid label name, `EmailService_getLatestEmailByLabel`
fails with `LABEL_NOT_FOUND` when no label of that name exists, fails
with `EMAIL_NOT_FOUND` when the label exists but has no conversations,
and otherwise returns the last message of the most recent thread under
the label.  The third clause holds for arbitrary remaining threads `ts`
and arbitrary message dates, so a thread whose last message is older than
some message of another thread is still never consulted: thread recency
(position 0 of `getThreads(0, 1)`), not global message recency,
determines the choice. -/
theorem EmailService_latest_by_label_spec (env : Env) (s : String) (hs : jsTrim s ≠ "") :
    (jsAssoc env.gmailLabels s = none →
      EmailService_getLatestEmailByLabel env (.str s) =
        .error (JsError.mk ("Label \"" ++ s ++ "\" does not exist") (some "LABEL_NOT_FOUND"))) ∧
    (jsAssoc env.gmailLabels s = some [] →
      EmailService_getLatestEmailByLabel env (.str s) =
        .error (JsError.mk ("No emails found under label \"" ++ s ++ "\"")
          (some "EMAIL_NOT_FOUND"))) ∧
    (∀ (ms : List GmailMessage) (m : GmailMessage) (ts : List (List GmailMessage)),
      jsAssoc env.gmailLabels s = some ((ms ++ [m]) :: ts) →
      EmailService_getLatestEmailByLabel env (.str s) = .ok (some m)) := by
  refine ⟨?_, ?_, ?_⟩
  · intro hnone
    simp [EmailService_getLatestEmailByLabel, Validators_validateGmailLabel, blankCond_eq,
      hs, jsShow, hnone, ErrorHandler_createError, ne_empty_of_jsTrim_ne s hs]
  · intro hempty
    simp [EmailService_getLatestEmailByLabel, Validators_validateGmailLabel, blankCond_eq,
      hs, jsShow, hempty, ErrorHandler_createError, ne_empty_of_jsTrim_ne s hs]
  · intro ms m ts hcons
    simp [EmailService_getLatestEmailByLabel, Validators_validateGmailLabel, blankCond_eq,
      hs, jsShow, hcons, List.getLast?_concat, ne_empty_of_jsTrim_ne s hs]

/-- Witness for C8 at a concrete input: a label with two threads returns
the last message of the first (most recent) thread even though the other
thread holds a message with a newer date. -/
theorem EmailService_latest_by_label_spec_witness :
    jsTrim "L" ≠ "" ∧
      EmailService_getLatestEmailByLabel
        { fixtureEnv with gmailLabels :=
            [("L", [[{ subject := "old-thread-last", date := 3, attachments := [] }],
                    [{ subject := "newer-message-elsewhere", date := 9, attachments := [] }]])] }
        (.str "L") =
        .ok (some { subject := "old-thread-last", date := 3, attachments := [] }) :=
  ⟨by decide,
   (EmailService_latest_by_label_spec
      { fixtureEnv with gmailLabels :=
          [("L", [[{ subject := "old-thread-last", date := 3, attachments := [] }],
                  [{ subject := "newer-message-elsewhere", date := 9, attachments := [] }]])] }
      "L" (by decide)).2.2 []
     { subject := "old-thread-last", date := 3, attachments := [] }
     [[{ subject := "newer-message-elsewhere", date := 9, attachments := [] }]] rfl⟩

/-- Counterexample for C9 as stated: `" "` is a non-empty string that
does not match the column-range pattern, yet `Validators_validateRange`
does not merely warn — it raises the `MISSING_PARAMETERS` error, because
the presence check also rejects any string whose trimmed form is empty. -/
theorem validateRange_blank_raises_counterexample :
    (" " : String) ≠ "" ∧ rangePattern " " = false ∧
      Validators_validateRange (.str " ") "Sheet update.rangeToClear" =
        .error (JsError.mk "Sheet update.rangeToClear: Invalid range provided"
          (some "MISSING_PARAMETERS")) :=
  ⟨by decide, by decide, by decide⟩

/-- C9 (amended): if the range is empty, whitespace-only, null,
undefined, or not a string, `Validators_validateRange` raises a
`MISSING_PARAMETERS` error; if the range is a string with non-whitespace
content that does not match `/^[A-Z]+\d*:[A-Z]+\d*$/`, it only logs a
warning (result `true`) and returns normally; and if it matches, it
returns normally with no warning (result `false`) — structural presence
is fatal, format correctness is advisory. -/
theorem validateRange_presence_fatal_format_advisory (ctx : String) :
    (Validators_validateRange .undef ctx =
        .error (JsError.mk (ctx ++ ": Invalid range provided") (some "MISSING_PARAMETERS"))) ∧
    (Validators_validateRange .null ctx =
        .error (JsError.mk (ctx ++ ": Invalid range provided") (some "MISSING_PARAMETERS"))) ∧
    (∀ n : Int, Validators_validateRange (.num n) ctx =
        .error (JsError.mk (ctx ++ ": Invalid range provided") (some "MISSING_PARAMETERS"))) ∧
    (∀ b : Bool, Validators_validateRange (.boolean b) ctx =
        .error (JsError.mk (ctx ++ ": Invalid range provided") (some "MISSING_PARAMETERS"))) ∧
    (∀ s : String, jsTrim s = "" → Validators_validateRange (.str s) ctx =
        .error (JsError.mk (ctx ++ ": Invalid range provided") (some "MISSING_PARAMETERS"))) ∧
    (∀ s : String, jsTrim s ≠ "" → rangePattern s = false →
        Validators_validateRange (.str s) ctx = .ok true) ∧
    (∀ s : String, jsTrim s ≠ "" → rangePattern s = true →
        Validators_validateRange (.str s) ctx = .ok false) := by
  refine ⟨rfl, rfl, fun n => rfl, fun b => rfl, ?_, ?_, ?_⟩
  · intro s hblank
    simp [Validators_validateRange, blankCond_eq, hblank, ErrorHandler_createError]
  · intro s hnb hpat
    simp [Validators_validateRange, blankCond_eq, hnb, hpat, ne_empty_of_jsTrim_ne s hnb]
  · intro s hnb hpat
    simp [Validators_validateRange, blankCond_eq, hnb, hpat, ne_empty_of_jsTrim_ne s hnb]

/-- Witness for the amended C9 at concrete inputs: `"ABC"` (present but
malformed) only warns; the conjuncts instantiate the theorem's
hypotheses. -/
theorem validateRange_presence_fatal_format_advisory_witness :
    (jsTrim "ABC" ≠ "" ∧ rangePattern "ABC" = false) ∧
      Validators_validateRange (.str "ABC") "Range" = .ok true :=
  ⟨⟨by decide, by decide⟩,
   (validateRange_presence_fatal_format_advisory "Range").2.2.2.2.2.1 "ABC"
     (by decide) (by decide)⟩
